import Mathlib

/-!
Verification of the Sudoku puzzle engine and deductive hint solver.

The embedding models the generator module (seeded RNG, backtracking grid
generation, puzzle creation) and the hint module (candidate calculator and
the twelve technique detectors) as executable Lean functions.

Modelling conventions:
* A grid is a `List Nat` of length 81; `0` means empty; out-of-range access
  uses `List.getD` with default `0`, matching in-contract JS array access.
* JS `Set<number>` values (notes, candidate sets) are modelled as
  `List Nat` in iteration (insertion) order; candidate sets are built by
  filtering the ascending digit list, matching JS `Set` iteration order.
* The ambient `Math.random` stream is modelled as an explicit environment
  `Env : Nat -> Nat` giving the numerator (out of 2^53) of each successive
  draw, threaded through every function of the unseeded path with a draw
  counter.  The daily (seeded) path never consumes it, as in the source.
* The Mulberry32 generator is modelled exactly, on naturals mod 2^32; the
  stored seed is kept reduced mod 2^32, which yields the same output
  stream as the JS double-valued accumulator in its exact range.
* `Hint` keeps the fields the specification's claims are about
  (`cellIndex`, `value`, `technique`, `notesToRemove`); the purely
  presentational fields (explanation text, highlight groups, eliminated
  number records) are omitted, since no claim concerns them and they do
  not influence any control flow.
-/

/-! ### Basic data -/

abbrev Grid := List Nat

abbrev Notes := List (List Nat)

abbrev Env := Nat → Nat

inductive Difficulty where
  | easy | medium | hard | extreme
deriving DecidableEq, Repr

/-- Reveal counts per difficulty (source: `DIFFICULTY_CELLS`). -/
def DIFFICULTY_CELLS : Difficulty → Nat
  | .easy => 45
  | .medium => 35
  | .hard => 28
  | .extreme => 22

/-- The digit list 1..9, in the ascending order the source always uses. -/
def digits : List Nat := [1, 2, 3, 4, 5, 6, 7, 8, 9]

/-- The all-empty 81-cell grid (source: `Array(81).fill(0)`). -/
def empty81 : Grid := List.replicate 81 0

/-! ### Seeded RNG (Mulberry32) and date seed -/

/-- Wrap an integer to a signed 32-bit value (JS `ToInt32`). -/
def toInt32 (n : Int) : Int :=
  let m := n % 4294967296
  if m < 2147483648 then m else m - 4294967296

/-- Rolling hash of a date string folded to a non-negative 32-bit integer
(source: `getDateSeed`; `hash = ((hash << 5) - hash) + charCode`, wrapped
to int32 each step, then `Math.abs`). -/
def getDateSeed (dateStr : String) : Nat :=
  (dateStr.data.foldl (fun hash c => toInt32 (toInt32 (hash * 32) - hash + c.toNat)) 0).natAbs

/-- State of the `SeededRandom` class: the current seed, kept mod 2^32. -/
abbrev RngS := Nat

/-- One step of Mulberry32 (source: `SeededRandom.next`).  Returns the
32-bit output numerator (the JS method returns `out / 2^32`) and the
updated seed. -/
def rngNext (s : RngS) : Nat × RngS :=
  let t0 := (s + 0x6D2B79F5) % 4294967296
  let t1 := (Nat.xor t0 (t0 >>> 15) * (t0 ||| 1)) % 4294967296
  let im := (Nat.xor t1 (t1 >>> 7) * (t1 ||| 61)) % 4294967296
  let t2 := Nat.xor t1 ((t1 + im) % 4294967296)
  (Nat.xor t2 (t2 >>> 14), t0)

/-! ### Fisher-Yates shuffles

The JS loop runs `i` from `length-1` down to `1`, drawing
`j = floor(rand * (i+1))`.  Since the RNG output is `out / 2^32` with
`out < 2^32` (and `Math.random` is `num / 2^53`), the floor equals integer
division, computed exactly in JS doubles for these magnitudes. -/

/-- Swap the entries at positions `i` and `j` (JS destructuring swap). -/
def swapL (l : List Nat) (i j : Nat) : List Nat :=
  (l.set i (l.getD j 0)).set j (l.getD i 0)

/-- The Fisher-Yates loop body, generic in the random source: `draw i s`
returns the swap index `j` for loop counter `i` (the JS
`Math.floor(rand * (i + 1))`) together with the advanced source state.
The loop iterates `i` from the start index down to 1, as in both JS
shuffles. -/
def fisherYatesAux {σ : Type} (draw : Nat → σ → Nat × σ) :
    Nat → List Nat → σ → List Nat × σ
  | 0, l, s => (l, s)
  | i + 1, l, s =>
    fisherYatesAux draw i (swapL l (i + 1) (draw (i + 1) s).1) (draw (i + 1) s).2

/-- Fisher-Yates over a whole array, generic in the random source. -/
def fisherYates {σ : Type} (draw : Nat → σ → Nat × σ) (l : List Nat) (s : σ) :
    List Nat × σ :=
  match l.length with
  | 0 => (l, s)
  | n + 1 => fisherYatesAux draw n l s

/-- One seeded draw for loop counter `i`:
`Math.floor(rng.next() * (i + 1))`, computed exactly as
`out * (i + 1) / 2^32` on the 32-bit output numerator. -/
def seededDraw (i : Nat) (r : RngS) : Nat × RngS :=
  ((rngNext r).1 * (i + 1) / 4294967296, (rngNext r).2)

/-- Source: `shuffleArraySeeded`. -/
def shuffleArraySeeded (l : List Nat) (r : RngS) : List Nat × RngS :=
  fisherYates seededDraw l r

/-- One ambient `Math.random` draw for loop counter `i`:
`Math.floor(Math.random() * (i + 1))` with the double modelled as
`env k / 2^53`; the state is the draw counter `k`. -/
def envDraw (env : Env) (i : Nat) (k : Nat) : Nat × Nat :=
  (env k % 9007199254740992 * (i + 1) / 9007199254740992, k + 1)

/-- Source: `shuffleArray` (unseeded); the second component is the advanced
draw counter. -/
def shuffleArrayEnv (env : Env) (l : List Nat) (k : Nat) : List Nat × Nat :=
  fisherYates (envDraw env) l k

/-! ### Backtracking generation -/

/-- Source: `canPlace` (and its verbatim copy `canPlaceSeeded`): the digit
`num` conflicts with no cell of the row, the column, or the 3x3 box. -/
def canPlace (grid : Grid) (row col num : Nat) : Bool :=
  ((List.range 9).all fun c => !(grid.getD (row * 9 + c) 0 == num)) &&
  ((List.range 9).all fun r => !(grid.getD (r * 9 + col) 0 == num)) &&
  ((List.range 3).all fun r =>
    (List.range 3).all fun c =>
      !(grid.getD ((row / 3 * 3 + r) * 9 + (col / 3 * 3 + c)) 0 == num))

/-!
The recursive `solve` of `generateCompleteGrid` / `generateSeededGrid`,
generic over the shuffler (seeded or `Math.random`-backed) with its state
`σ`.  `fuel` is `81 - pos`; callers start at `fuel = 81`, `pos = 0`.
`solveCellsG` handles one cell, `tryNumsG` the loop over the shuffled
digits; on failure of a branch the unmodified grid is retried with the
next digit, which models the source's `grid[pos] = 0` backtracking reset.
-/
mutual

def solveCellsG {σ : Type} (shuf : List Nat → σ → List Nat × σ) :
    Nat → Nat → Grid → σ → Option Grid × σ
  | 0, _, grid, s => (some grid, s)
  | fuel + 1, pos, grid, s =>
    let p := shuf digits s
    tryNumsG shuf fuel pos p.1 grid p.2
termination_by f _ _ _ => (f, 0)

def tryNumsG {σ : Type} (shuf : List Nat → σ → List Nat × σ) :
    Nat → Nat → List Nat → Grid → σ → Option Grid × σ
  | _, _, [], _, s => (none, s)
  | fuel, pos, num :: rest, grid, s =>
    if canPlace grid (pos / 9) (pos % 9) num then
      match solveCellsG shuf fuel (pos + 1) (grid.set pos num) s with
      | (some g, s1) => (some g, s1)
      | (none, s1) => tryNumsG shuf fuel pos rest grid s1
    else
      tryNumsG shuf fuel pos rest grid s
termination_by f _ nums _ _ => (f, nums.length + 1)

end

/-- Source: `generateCompleteGrid`, drawing digit shuffles from the ambient
`Math.random` stream; on (impossible) failure the mutated grid is back to
all zeros and is returned as-is, as in the source (`Option.getD empty81`
models returning the mutable grid whether or not `solve` succeeded). -/
def generateCompleteGrid (env : Env) (k : Nat) : Grid × Nat :=
  ((solveCellsG (shuffleArrayEnv env) 81 0 empty81 k).1.getD empty81,
   (solveCellsG (shuffleArrayEnv env) 81 0 empty81 k).2)

/-- Source: `generateSeededGrid`; identical algorithm drawing every shuffle
from the supplied seeded RNG. -/
def generateSeededGrid (r : RngS) : Grid × RngS :=
  ((solveCellsG shuffleArraySeeded 81 0 empty81 r).1.getD empty81,
   (solveCellsG shuffleArraySeeded 81 0 empty81 r).2)

/-! ### Grid validation -/

/-- Seen-set duplicate check over one unit's values: `false` iff some
non-zero value occurs twice. -/
def noDups : List Nat → Bool
  | [] => true
  | v :: rest => (v == 0 || !(rest.contains v)) && noDups rest

/-- Source: `isValidGrid`: every row, column and box is free of duplicate
non-zero values. -/
def isValidGrid (grid : Grid) : Bool :=
  ((List.range 9).all fun row =>
    noDups ((List.range 9).map fun col => grid.getD (row * 9 + col) 0)) &&
  ((List.range 9).all fun col =>
    noDups ((List.range 9).map fun row => grid.getD (row * 9 + col) 0)) &&
  ((List.range 3).all fun boxRow =>
    (List.range 3).all fun boxCol =>
      noDups ((List.range 3).flatMap fun r =>
        (List.range 3).map fun c =>
          grid.getD ((boxRow * 3 + r) * 9 + (boxCol * 3 + c)) 0))

/-! ### Puzzle creation -/

/-- Zero out the first `k` listed positions of the grid (the removal loop
of `createPuzzle` / `createDailyPuzzleFromSolution`, which breaks once
`removed >= cellsToRemove`). -/
def removeCells : List Nat → Nat → Grid → Grid
  | _, 0, p => p
  | [], _, p => p
  | pos :: rest, k + 1, p => removeCells rest k (p.set pos 0)

/-- Source: `createPuzzle`, with the defensive regeneration recursion made
explicit through a fuel bound (the validation failure branch is proved
unreachable below, so the fuel never matters in fact). -/
def createPuzzleF : Nat → Env → Nat → Difficulty → Option ((Grid × Grid) × Nat)
  | 0, _, _, _ => none
  | fuel + 1, env, k, difficulty =>
    let p := generateCompleteGrid env k
    if isValidGrid p.1 then
      let cellsToRemove := 81 - DIFFICULTY_CELLS difficulty
      let q := shuffleArrayEnv env (List.range 81) p.2
      some ((removeCells q.1 cellsToRemove p.1, p.1), q.2)
    else
      createPuzzleF fuel env p.2 difficulty

/-- Source: `createPuzzle` as exposed to callers; returns
`(puzzle, solution)`. -/
def createPuzzle (env : Env) (difficulty : Difficulty) : Grid × Grid :=
  match createPuzzleF 1 env 0 difficulty with
  | some (r, _) => r
  | none => ([], [])

/-- Source: `createDailyPuzzleFromSolution`: remove cells using the seeded
RNG's continued stream. -/
def createDailyPuzzleFromSolution (solution : Grid) (r : RngS) (dateStr : String)
    (difficulty : Difficulty) : Grid × Grid × String :=
  let cellsToRemove := 81 - DIFFICULTY_CELLS difficulty
  let q := shuffleArraySeeded (List.range 81) r
  (removeCells q.1 cellsToRemove solution, solution, dateStr)

/-- The pure daily pipeline: seed from the date string, seeded generation,
defensive re-seed with `seed + 1` on validation failure, then removal from
the same RNG's continued stream. -/
def mkDaily (dateStr : String) (difficulty : Difficulty) : Grid × Grid × String :=
  let seed := getDateSeed dateStr
  let p := generateSeededGrid seed
  if isValidGrid p.1 then
    createDailyPuzzleFromSolution p.1 p.2 dateStr difficulty
  else
    let p2 := generateSeededGrid (seed + 1)
    createDailyPuzzleFromSolution p2.1 p2.2 dateStr difficulty

/-- Source: `createDailyPuzzle`.  The ambient `Math.random` environment is
passed in (every exported operation runs with it available) but the daily
path never consumes it. -/
def createDailyPuzzle (_env : Env) (dateStr : String) (difficulty : Difficulty) :
    Grid × Grid × String :=
  mkDaily dateStr difficulty

/-! ### Hint system: geometry and candidates (source: `hints.ts`) -/

/-- Source: `getRowIndices` (hints module). -/
def getRowIndices (row : Nat) : List Nat :=
  (List.range 9).map fun i => row * 9 + i

/-- Source: `getColIndices` (hints module). -/
def getColIndices (col : Nat) : List Nat :=
  (List.range 9).map fun i => i * 9 + col

/-- Source: `getBoxIndices` (hints module), row-major within the box. -/
def getBoxIndices (boxRow boxCol : Nat) : List Nat :=
  (List.range 3).flatMap fun r =>
    (List.range 3).map fun c => (boxRow * 3 + r) * 9 + (boxCol * 3 + c)

/-- Source: `cellsSeeEachOther`: same row, same column, or same box. -/
def cellsSeeEachOther (a b : Nat) : Bool :=
  a / 9 == b / 9 || a % 9 == b % 9 ||
  (a / 9 / 3 == b / 9 / 3 && a % 9 / 3 == b % 9 / 3)

/-- Source: `getPossibleValues`: digits not used in the cell's row, column
or box; empty for a filled cell. -/
def getPossibleValues (grid : Grid) (index : Nat) : List Nat :=
  if grid.getD index 0 ≠ 0 then []
  else
    digits.filter fun n =>
      !((getRowIndices (index / 9)).any fun i => grid.getD i 0 == n) &&
      !((getColIndices (index % 9)).any fun i => grid.getD i 0 == n) &&
      !((getBoxIndices (index / 9 / 3) (index % 9 / 3)).any fun i => grid.getD i 0 == n)

/-- Source: `getCandidates`: possible values, intersected with the player's
notes when the cell has any. -/
def getCandidates (grid : Grid) (notes : Notes) (index : Nat) : List Nat :=
  if grid.getD index 0 ≠ 0 then []
  else
    let possible := getPossibleValues grid index
    let cellNotes := notes.getD index []
    if cellNotes ≠ [] then possible.filter fun n => cellNotes.contains n
    else possible

/-- Source: `getAllCandidates`: one candidate set per cell. -/
def getAllCandidates (grid : Grid) (notes : Notes) : List (List Nat) :=
  (List.range 81).map fun i => getCandidates grid notes i

/-- The hint result object.  Presentation-only fields of the source
(`explanation`, `highlights`, `eliminatedNumbers`) are omitted; see the
module header. -/
structure Hint where
  cellIndex : Nat
  value : Nat
  technique : String
  notesToRemove : List (Nat × Nat)
deriving DecidableEq, Repr

/-- Insertion-order deduplication, modelling `Array.from(new Set(l))`. -/
def dedupIns (l : List Nat) : List Nat :=
  l.foldl (fun acc n => if acc.contains n then acc else acc ++ [n]) []

/-- All ordered pairs `(l[a], l[b])` with `a < b`, in the nested-loop order
of the source (`for a ...: for b = a+1 ...`). -/
def pairsOf {α : Type} : List α → List (α × α)
  | [] => []
  | x :: rest => (rest.map fun y => (x, y)) ++ pairsOf rest

/-- All ordered triples in the nested-loop order of the source. -/
def triplesOf {α : Type} : List α → List (α × α × α)
  | [] => []
  | x :: rest => ((pairsOf rest).map fun p => (x, p.1, p.2)) ++ triplesOf rest

/-! ### Technique detectors

Each `checkUnit` / `scanUnit` inner function of the source is lifted to a
named top-level helper, and the repeated row/column/box scan blocks are
factored through `scan3`, which preserves the fixed scan order (rows 0-8,
then columns 0-8, then boxes in row-major order).
-/

/-- The shared row/column/box scan order of the detectors. -/
def scan3 (f : List Nat → Option Hint) : Option Hint :=
  match (List.range 9).findSome? (fun row => f (getRowIndices row)) with
  | some h => some h
  | none =>
  match (List.range 9).findSome? (fun col => f (getColIndices col)) with
  | some h => some h
  | none =>
    (List.range 3).findSome? fun boxRow =>
      (List.range 3).findSome? fun boxCol => f (getBoxIndices boxRow boxCol)

/-- Unit scan of `findLastFreeCell`: a unit with exactly one empty cell;
the cell's first candidate is the forced value (the source skips the unit
when the candidate set is empty). -/
def lastFreeCellUnit (grid : Grid) (cands : List (List Nat)) (indices : List Nat) :
    Option Hint :=
  match indices.filter (fun i => grid.getD i 0 == 0) with
  | [cell] =>
    match (cands.getD cell []).head? with
    | some value =>
      some { cellIndex := cell, value := value, technique := "Last Free Cell",
             notesToRemove := [] }
    | none => none
  | _ => none

/-- Source: `findLastFreeCell`. -/
def findLastFreeCell (grid : Grid) (cands : List (List Nat)) : Option Hint :=
  scan3 (lastFreeCellUnit grid cands)

/-- Source: `findNakedSingle`: first empty cell whose candidate set is a
singleton. -/
def findNakedSingle (grid : Grid) (cands : List (List Nat)) : Option Hint :=
  (List.range 81).findSome? fun i =>
    if grid.getD i 0 ≠ 0 then none
    else
      match cands.getD i [] with
      | [value] =>
        some { cellIndex := i, value := value, technique := "Naked Single",
               notesToRemove := [] }
      | _ => none

/-- Unit scan of `findHiddenSingle`: a digit not yet placed in the unit
whose candidates are confined to exactly one cell, digits ascending. -/
def hiddenSingleUnit (grid : Grid) (cands : List (List Nat)) (indices : List Nat) :
    Option Hint :=
  digits.findSome? fun num =>
    if indices.any (fun i => grid.getD i 0 == num) then none
    else
      match indices.filter (fun i => (cands.getD i []).contains num) with
      | [cell] =>
        some { cellIndex := cell, value := num, technique := "Hidden Single",
               notesToRemove := [] }
      | _ => none

/-- Source: `findHiddenSingle`. -/
def findHiddenSingle (grid : Grid) (cands : List (List Nat)) : Option Hint :=
  scan3 (hiddenSingleUnit grid cands)

/-- Unit scan of `findNakedPairs`: two cells of the unit with identical
2-digit candidate sets; surfaced only when the elimination removes at
least one player note. -/
def nakedPairsUnit (grid : Grid) (cands : List (List Nat)) (notes : Notes)
    (indices : List Nat) : Option Hint :=
  let emptyCells := indices.filter fun i =>
    grid.getD i 0 == 0 && (cands.getD i []).length == 2
  (pairsOf emptyCells).findSome? fun pr =>
    let cellA := pr.1
    let cellB := pr.2
    match cands.getD cellA [], cands.getD cellB [] with
    | [p1, p2], [q1, q2] =>
      if p1 == q1 && p2 == q2 then
        let pairNums := [p1, p2]
        let affected := indices.filter fun i =>
          !(i == cellA) && !(i == cellB) && grid.getD i 0 == 0 &&
          ((cands.getD i []).contains p1 || (cands.getD i []).contains p2)
        let notesToRemove := affected.flatMap fun cell =>
          let cellNotes := notes.getD cell []
          if cellNotes.isEmpty then []
          else (pairNums.filter fun n => cellNotes.contains n).map fun n => (cell, n)
        if !notesToRemove.isEmpty then
          some { cellIndex := cellA, value := 0, technique := "Naked Pairs",
                 notesToRemove := notesToRemove }
        else none
      else none
    | _, _ => none

/-- Source: `findNakedPairs`. -/
def findNakedPairs (grid : Grid) (cands : List (List Nat)) (notes : Notes) :
    Option Hint :=
  scan3 (nakedPairsUnit grid cands notes)

/-- Unit scan of `findNakedTriples`: three cells (each with 2 or 3
candidates) whose candidate pool is exactly 3 digits; surfaced only when
a player note is removed. -/
def nakedTriplesUnit (grid : Grid) (cands : List (List Nat)) (notes : Notes)
    (indices : List Nat) : Option Hint :=
  let emptyCells := indices.filter fun i =>
    grid.getD i 0 == 0 && 2 ≤ (cands.getD i []).length && (cands.getD i []).length ≤ 3
  (triplesOf emptyCells).findSome? fun tr =>
    let cells := [tr.1, tr.2.1, tr.2.2]
    let allCands := dedupIns (cells.flatMap fun cell => cands.getD cell [])
    if allCands.length == 3 then
      let tripleNums := allCands
      let affected := indices.filter fun i =>
        !(cells.contains i) && grid.getD i 0 == 0 &&
        (tripleNums.any fun n => (cands.getD i []).contains n)
      let notesToRemove := affected.flatMap fun cell =>
        let cellNotes := notes.getD cell []
        if cellNotes.isEmpty then []
        else (tripleNums.filter fun n => cellNotes.contains n).map fun n => (cell, n)
      if !notesToRemove.isEmpty then
        some { cellIndex := tr.1, value := 0, technique := "Naked Triples",
               notesToRemove := notesToRemove }
      else none
    else none

/-- Source: `findNakedTriples`. -/
def findNakedTriples (grid : Grid) (cands : List (List Nat)) (notes : Notes) :
    Option Hint :=
  scan3 (nakedTriplesUnit grid cands notes)

/-- Unit scan of `findHiddenPairs`: two digits confined to the same two
cells of the unit; surfaced only when another candidate noted in those
cells can be removed. -/
def hiddenPairsUnit (grid : Grid) (cands : List (List Nat)) (notes : Notes)
    (indices : List Nat) : Option Hint :=
  let emptyCells := indices.filter fun i => grid.getD i 0 == 0
  (pairsOf digits).findSome? fun pr =>
    let n1 := pr.1
    let n2 := pr.2
    match emptyCells.filter (fun i => (cands.getD i []).contains n1),
          emptyCells.filter (fun i => (cands.getD i []).contains n2) with
    | [a1, a2], [b1, b2] =>
      if a1 == b1 && a2 == b2 then
        let pairCells := [a1, a2]
        let toRemove := pairCells.flatMap fun cell =>
          let cellNotes := notes.getD cell []
          if cellNotes.isEmpty then []
          else
            (cellNotes.filter fun n =>
              !(n == n1) && !(n == n2) && (getPossibleValues grid cell).contains n).map
              fun n => (cell, n)
        if !toRemove.isEmpty then
          some { cellIndex := a1, value := 0, technique := "Hidden Pairs",
                 notesToRemove := toRemove }
        else none
      else none
    | _, _ => none

/-- Source: `findHiddenPairs`. -/
def findHiddenPairs (grid : Grid) (cands : List (List Nat)) (notes : Notes) :
    Option Hint :=
  scan3 (hiddenPairsUnit grid cands notes)

/-- Unit scan of `findHiddenTriples`: three digits whose candidate cells
in the unit collectively span exactly three cells; surfaced only when
another noted candidate in those cells can be removed. -/
def hiddenTriplesUnit (grid : Grid) (cands : List (List Nat)) (notes : Notes)
    (indices : List Nat) : Option Hint :=
  let emptyCells := indices.filter fun i => grid.getD i 0 == 0
  (triplesOf digits).findSome? fun tr =>
    let n1 := tr.1
    let n2 := tr.2.1
    let n3 := tr.2.2
    match emptyCells.filter (fun i =>
        (cands.getD i []).contains n1 || (cands.getD i []).contains n2 ||
        (cands.getD i []).contains n3) with
    | [c1, c2, c3] =>
      let cellsWithAny := [c1, c2, c3]
      let toRemove := cellsWithAny.flatMap fun cell =>
        let cellNotes := notes.getD cell []
        if cellNotes.isEmpty then []
        else
          (cellNotes.filter fun n =>
            !(n == n1) && !(n == n2) && !(n == n3) &&
            (getPossibleValues grid cell).contains n).map fun n => (cell, n)
      if !toRemove.isEmpty then
        some { cellIndex := c1, value := 0, technique := "Hidden Triples",
               notesToRemove := toRemove }
      else none
    | _ => none

/-- Source: `findHiddenTriples`. -/
def findHiddenTriples (grid : Grid) (cands : List (List Nat)) (notes : Notes) :
    Option Hint :=
  scan3 (hiddenTriplesUnit grid cands notes)


/-- First non-none of two sequential detector cases (models the source's
`return`-on-hit followed by falling through to the next block). -/
def orElseH (o1 o2 : Option Hint) : Option Hint :=
  match o1 with
  | some h => some h
  | none => o2

/-- Row branch of `findPointingPairs`: the candidate cells for `num` in the
box all lie in one row; eliminate from the rest of the row. -/
def pointingRowCase (cands : List (List Nat)) (notes : Notes) (boxIndices : List Nat)
    (cellsWithNum : List Nat) (num : Nat) : Option Hint :=
  match dedupIns (cellsWithNum.map fun i => i / 9) with
  | [row] =>
    let affected := (getRowIndices row).filter fun i =>
      !(boxIndices.contains i) && (cands.getD i []).contains num
    let notesToRemove :=
      (affected.filter fun cell => (notes.getD cell []).contains num).map
        fun cell => (cell, num)
    if !notesToRemove.isEmpty then
      some { cellIndex := cellsWithNum.headD 0, value := 0,
             technique := if cellsWithNum.length == 2 then "Pointing Pairs"
                          else "Pointing Triples",
             notesToRemove := notesToRemove }
    else none
  | _ => none

/-- Column branch of `findPointingPairs`. -/
def pointingColCase (cands : List (List Nat)) (notes : Notes) (boxIndices : List Nat)
    (cellsWithNum : List Nat) (num : Nat) : Option Hint :=
  match dedupIns (cellsWithNum.map fun i => i % 9) with
  | [col] =>
    let affected := (getColIndices col).filter fun i =>
      !(boxIndices.contains i) && (cands.getD i []).contains num
    let notesToRemove :=
      (affected.filter fun cell => (notes.getD cell []).contains num).map
        fun cell => (cell, num)
    if !notesToRemove.isEmpty then
      some { cellIndex := cellsWithNum.headD 0, value := 0,
             technique := if cellsWithNum.length == 2 then "Pointing Pairs"
                          else "Pointing Triples",
             notesToRemove := notesToRemove }
    else none
  | _ => none

/-- Source: `findPointingPairs`: a digit whose candidates within a box are
confined to one row (or column); eliminable from the rest of that row
(column); surfaced only when a player note is removed. -/
def findPointingPairs (grid : Grid) (cands : List (List Nat)) (notes : Notes) :
    Option Hint :=
  (List.range 3).findSome? fun boxRow =>
    (List.range 3).findSome? fun boxCol =>
      let boxIndices := getBoxIndices boxRow boxCol
      digits.findSome? fun num =>
        if boxIndices.any (fun i => grid.getD i 0 == num) then none
        else
          let cellsWithNum := boxIndices.filter fun i => (cands.getD i []).contains num
          if cellsWithNum.length < 2 || 3 < cellsWithNum.length then none
          else
            orElseH (pointingRowCase cands notes boxIndices cellsWithNum num)
                    (pointingColCase cands notes boxIndices cellsWithNum num)

/-- Row-based scan of `findXWing` for one digit. -/
def xwingRowsCase (cands : List (List Nat)) (notes : Notes) (num : Nat) : Option Hint :=
  (List.range 9).findSome? fun row1 =>
    let row1Cells := (getRowIndices row1).filter fun i => (cands.getD i []).contains num
    if !(row1Cells.length == 2) then none
    else
      let cols := row1Cells.map fun i => i % 9
      (List.range 9).findSome? fun row2 =>
        if row2 ≤ row1 then none
        else
          let row2Cells :=
            (getRowIndices row2).filter fun i => (cands.getD i []).contains num
          if !(row2Cells.length == 2) then none
          else
            let row2Cols := row2Cells.map fun i => i % 9
            if cols.getD 0 0 == row2Cols.getD 0 0 && cols.getD 1 0 == row2Cols.getD 1 0 then
              let xWingCells := row1Cells ++ row2Cells
              let affected := cols.flatMap fun col =>
                (getColIndices col).filter fun i =>
                  !(xWingCells.contains i) && (cands.getD i []).contains num
              let notesToRemove :=
                (affected.filter fun cell => (notes.getD cell []).contains num).map
                  fun cell => (cell, num)
              if !notesToRemove.isEmpty then
                some { cellIndex := row1Cells.headD 0, value := 0,
                       technique := "X-Wing", notesToRemove := notesToRemove }
              else none
            else none

/-- Column-based scan of `findXWing` for one digit. -/
def xwingColsCase (cands : List (List Nat)) (notes : Notes) (num : Nat) : Option Hint :=
  (List.range 9).findSome? fun col1 =>
    let col1Cells := (getColIndices col1).filter fun i => (cands.getD i []).contains num
    if !(col1Cells.length == 2) then none
    else
      let rows := col1Cells.map fun i => i / 9
      (List.range 9).findSome? fun col2 =>
        if col2 ≤ col1 then none
        else
          let col2Cells :=
            (getColIndices col2).filter fun i => (cands.getD i []).contains num
          if !(col2Cells.length == 2) then none
          else
            let col2Rows := col2Cells.map fun i => i / 9
            if rows.getD 0 0 == col2Rows.getD 0 0 && rows.getD 1 0 == col2Rows.getD 1 0 then
              let xWingCells := col1Cells ++ col2Cells
              let affected := rows.flatMap fun row =>
                (getRowIndices row).filter fun i =>
                  !(xWingCells.contains i) && (cands.getD i []).contains num
              let notesToRemove :=
                (affected.filter fun cell => (notes.getD cell []).contains num).map
                  fun cell => (cell, num)
              if !notesToRemove.isEmpty then
                some { cellIndex := col1Cells.headD 0, value := 0,
                       technique := "X-Wing", notesToRemove := notesToRemove }
              else none
            else none

/-- Source: `findXWing`: a digit with exactly two candidate cells in each
of two rows, aligned on the same two columns (then the transposed
column-based scan); surfaced only when a player note is removed. -/
def findXWing (grid : Grid) (cands : List (List Nat)) (notes : Notes) :
    Option Hint :=
  let _ := grid
  digits.findSome? fun num =>
    orElseH (xwingRowsCase cands notes num) (xwingColsCase cands notes num)

/-- One orientation of the `findYWing` wing check: wing1 holds `x`, wing2
holds `y`, and both share the third digit `c`; the second orientation is
the same check with `x` and `y` exchanged. -/
def ywingCase (grid : Grid) (cands : List (List Nat)) (notes : Notes)
    (pivot wing1 wing2 x y : Nat) : Option Hint :=
  if (cands.getD wing1 []).contains x && (cands.getD wing2 []).contains y then
    match (cands.getD wing1 []).find? (fun n => !(n == x)),
          (cands.getD wing2 []).find? (fun n => !(n == y)) with
    | some c1, some c2 =>
      if c1 == c2 then
        let c := c1
        let affected := (List.range 81).filter fun i =>
          !(i == pivot) && !(i == wing1) && !(i == wing2) &&
          grid.getD i 0 == 0 && (cands.getD i []).contains c &&
          cellsSeeEachOther i wing1 && cellsSeeEachOther i wing2
        let notesToRemove :=
          (affected.filter fun cell => (notes.getD cell []).contains c).map
            fun cell => (cell, c)
        if !notesToRemove.isEmpty then
          some { cellIndex := pivot, value := 0, technique := "Y-Wing",
                 notesToRemove := notesToRemove }
        else none
      else none
    | _, _ => none
  else none

/-- Source: `findYWing`: a bi-value pivot `{a,b}` with wings `{a,c}` and
`{b,c}` seeing it; `c` eliminable from cells seeing both wings; surfaced
only when a player note is removed. -/
def findYWing (grid : Grid) (cands : List (List Nat)) (notes : Notes) :
    Option Hint :=
  let biValueCells := (List.range 81).filter fun i =>
    grid.getD i 0 == 0 && (cands.getD i []).length == 2
  biValueCells.findSome? fun pivot =>
    let a := (cands.getD pivot []).getD 0 0
    let b := (cands.getD pivot []).getD 1 0
    let wings := biValueCells.filter fun cell =>
      !(cell == pivot) && cellsSeeEachOther pivot cell &&
      ((cands.getD cell []).contains a != (cands.getD cell []).contains b)
    (pairsOf wings).findSome? fun wpr =>
      orElseH (ywingCase grid cands notes pivot wpr.1 wpr.2 a b)
              (ywingCase grid cands notes pivot wpr.1 wpr.2 b a)

/-- Row-based scan of `findSwordfish` for one digit. -/
def swordfishRowsCase (cands : List (List Nat)) (notes : Notes) (num : Nat) :
    Option Hint :=
  let rowsWithNum := (List.range 9).filterMap fun row =>
    let cols := ((getRowIndices row).filter fun i =>
      (cands.getD i []).contains num).map fun i => i % 9
    if 2 ≤ cols.length && cols.length ≤ 3 then some (row, cols) else none
  (triplesOf rowsWithNum).findSome? fun tr =>
    let allCols := dedupIns (tr.1.2 ++ tr.2.1.2 ++ tr.2.2.2)
    if allCols.length == 3 then
      let rows := [tr.1.1, tr.2.1.1, tr.2.2.1]
      let cols := allCols
      let swordfishCells := rows.flatMap fun row =>
        cols.filterMap fun col =>
          if (cands.getD (row * 9 + col) []).contains num then some (row * 9 + col)
          else none
      let affected := cols.flatMap fun col =>
        (getColIndices col).filter fun i =>
          !(swordfishCells.contains i) && (cands.getD i []).contains num
      let notesToRemove :=
        (affected.filter fun cell => (notes.getD cell []).contains num).map
          fun cell => (cell, num)
      if !notesToRemove.isEmpty then
        some { cellIndex := swordfishCells.headD 0, value := 0,
               technique := "Swordfish", notesToRemove := notesToRemove }
      else none
    else none

/-- Column-based scan of `findSwordfish` for one digit. -/
def swordfishColsCase (cands : List (List Nat)) (notes : Notes) (num : Nat) :
    Option Hint :=
  let colsWithNum := (List.range 9).filterMap fun col =>
    let rows := ((getColIndices col).filter fun i =>
      (cands.getD i []).contains num).map fun i => i / 9
    if 2 ≤ rows.length && rows.length ≤ 3 then some (col, rows) else none
  (triplesOf colsWithNum).findSome? fun tr =>
    let allRows := dedupIns (tr.1.2 ++ tr.2.1.2 ++ tr.2.2.2)
    if allRows.length == 3 then
      let cols := [tr.1.1, tr.2.1.1, tr.2.2.1]
      let rows := allRows
      let swordfishCells := rows.flatMap fun row =>
        cols.filterMap fun col =>
          if (cands.getD (row * 9 + col) []).contains num then some (row * 9 + col)
          else none
      let affected := rows.flatMap fun row =>
        (getRowIndices row).filter fun i =>
          !(swordfishCells.contains i) && (cands.getD i []).contains num
      let notesToRemove :=
        (affected.filter fun cell => (notes.getD cell []).contains num).map
          fun cell => (cell, num)
      if !notesToRemove.isEmpty then
        some { cellIndex := swordfishCells.headD 0, value := 0,
               technique := "Swordfish", notesToRemove := notesToRemove }
      else none
    else none

/-- Source: `findSwordfish`: three rows (then columns) whose candidate
positions for a digit collectively span exactly three columns (rows);
surfaced only when a player note is removed. -/
def findSwordfish (grid : Grid) (cands : List (List Nat)) (notes : Notes) :
    Option Hint :=
  let _ := grid
  digits.findSome? fun num =>
    orElseH (swordfishRowsCase cands notes num) (swordfishColsCase cands notes num)


/-- Source: `findInvalidNotes`: a player note that is no longer a legal
candidate for its cell (the `candidates` parameter of the source is
likewise unused). -/
def findInvalidNotes (grid : Grid) (notes : Notes) (_cands : List (List Nat)) :
    Option Hint :=
  (List.range 81).findSome? fun i =>
    if grid.getD i 0 ≠ 0 then none
    else
      let cellNotes := notes.getD i []
      if cellNotes.isEmpty then none
      else
        let possible := getPossibleValues grid i
        let invalidNotes := cellNotes.filter fun note => !(possible.contains note)
        if !invalidNotes.isEmpty then
          some { cellIndex := i, value := 0, technique := "Invalid Notes",
                 notesToRemove := invalidNotes.map fun n => (i, n) }
        else none

/-- Source: `getHint`: compute all candidate sets once, then try the twelve
detectors in priority order, returning the first hit. -/
def getHint (grid : Grid) (solution : Grid) (notes : Notes) : Option Hint :=
  let _ := solution
  let cands := getAllCandidates grid notes
  match findInvalidNotes grid notes cands with
  | some h => some h
  | none =>
  match findLastFreeCell grid cands with
  | some h => some h
  | none =>
  match findNakedSingle grid cands with
  | some h => some h
  | none =>
  match findHiddenSingle grid cands with
  | some h => some h
  | none =>
  match findPointingPairs grid cands notes with
  | some h => some h
  | none =>
  match findNakedPairs grid cands notes with
  | some h => some h
  | none =>
  match findHiddenPairs grid cands notes with
  | some h => some h
  | none =>
  match findNakedTriples grid cands notes with
  | some h => some h
  | none =>
  match findHiddenTriples grid cands notes with
  | some h => some h
  | none =>
  match findXWing grid cands notes with
  | some h => some h
  | none =>
  match findYWing grid cands notes with
  | some h => some h
  | none =>
  match findSwordfish grid cands notes with
  | some h => some h
  | none => none

/-! ### Spec-side chain for the detector priority order -/

/-- First non-`none` entry of a list of detector results. -/
def firstSome : List (Option Hint) → Option Hint
  | [] => none
  | o :: rest =>
    match o with
    | some h => some h
    | none => firstSome rest

/-- The hint pipeline exactly as the specification words it: compute
`allCandidates` once, then try the detectors strictly in the listed
priority order and return the first non-none result, or none if all
twelve return none. -/
def getHintSpecChain (grid : Grid) (solution : Grid) (notes : Notes) : Option Hint :=
  let _ := solution
  let cands := getAllCandidates grid notes
  firstSome
    [findInvalidNotes grid notes cands,
     findLastFreeCell grid cands,
     findNakedSingle grid cands,
     findHiddenSingle grid cands,
     findPointingPairs grid cands notes,
     findNakedPairs grid cands notes,
     findHiddenPairs grid cands notes,
     findNakedTriples grid cands notes,
     findHiddenTriples grid cands notes,
     findXWing grid cands notes,
     findYWing grid cands notes,
     findSwordfish grid cands notes]

/-! ### Claim C1 -/

/-- C1: `createDailyPuzzle` is deterministic in its date string and
difficulty: the ambient `Math.random` environment never flows into the
result, so any two calls (under arbitrary ambient random streams) return
identical puzzle arrays and identical solution arrays, and the result
coincides with the purely seed-driven pipeline `mkDaily`, whose cell
removal continues the same Mulberry32 stream used for grid generation. -/
theorem claim_C1_daily_deterministic (env1 env2 : Env) (dateStr : String)
    (difficulty : Difficulty) :
    (createDailyPuzzle env1 dateStr difficulty).1 =
      (createDailyPuzzle env2 dateStr difficulty).1 ∧
    (createDailyPuzzle env1 dateStr difficulty).2.1 =
      (createDailyPuzzle env2 dateStr difficulty).2.1 ∧
    createDailyPuzzle env1 dateStr difficulty = createDailyPuzzle env2 dateStr difficulty ∧
    createDailyPuzzle env1 dateStr difficulty = mkDaily dateStr difficulty :=
  ⟨rfl, rfl, rfl, rfl⟩

/-! ### Claim C10 -/

/-- C10: `getHint` never consults its solution argument: the result is
identical for any two solution arrays (noninterference of the solution
input). -/
theorem claim_C10_solution_noninterference (grid : Grid) (sol1 sol2 : Grid)
    (notes : Notes) :
    getHint grid sol1 notes = getHint grid sol2 notes :=
  rfl

/-! ### Claim C2 -/

/-- C2: `getHint` computes `allCandidates` once and runs the twelve
detectors in exactly the claimed priority order (Invalid Notes, Last Free
Cell, Naked Single, Hidden Single, Pointing Pairs/Triples, Naked Pairs,
Hidden Pairs, Naked Triples, Hidden Triples, X-Wing, Y-Wing, Swordfish),
returning the first detector's hint, and none when all twelve miss. -/
theorem claim_C2_detector_priority_order (grid : Grid) (solution : Grid)
    (notes : Notes) :
    getHint grid solution notes = getHintSpecChain grid solution notes :=
  rfl

/-! ### Claim C5 -/

/-- C5: membership in `getCandidates grid notes index` holds exactly when
the cell is empty, the value is a legal possible value, and either the
player has no notes on the cell (unfiltered case) or the value is among
the notes (intersection case).  In particular the candidate set of a
filled cell is empty and candidates are always a subset of
`getPossibleValues` (notes narrow, never widen, the legal set). -/
theorem claim_C5_candidates_notes_intersection (grid : Grid) (notes : Notes)
    (index v : Nat) :
    v ∈ getCandidates grid notes index ↔
      grid.getD index 0 = 0 ∧ v ∈ getPossibleValues grid index ∧
        (notes.getD index [] = [] ∨ v ∈ notes.getD index []) := by
  simp only [getCandidates, List.getD_eq_getElem?_getD]
  by_cases hfill : grid[index]?.getD 0 = 0
  · by_cases hnotes : notes[index]?.getD [] = []
    · simp [hfill, hnotes]
    · simp [hfill, hnotes, List.mem_filter]
  · simp [hfill]

/-! ### Claim C6: elimination detectors only fire on removable notes -/

/-- A hint whose elimination touches at least one player note. -/
def hintRemoves (h : Hint) : Bool := !h.notesToRemove.isEmpty

/-- A hint that removes no notes (placement hints). -/
def hintKeeps (h : Hint) : Bool := h.notesToRemove.isEmpty

lemma optAll_findSome? {α : Type} {p : Hint → Bool} {f : α → Option Hint} :
    ∀ {l : List α}, (∀ x ∈ l, Option.all p (f x) = true) →
      Option.all p (l.findSome? f) = true := by
  intro l
  induction l with
  | nil => intro _; rfl
  | cons a rest ih =>
    intro h
    rw [List.findSome?_cons]
    cases hfa : f a with
    | some b => have := h a (List.mem_cons_self a rest); rw [hfa] at this; simpa using this
    | none => exact ih fun x hx => h x (List.mem_cons_of_mem a hx)

lemma optAll_scan3 {p : Hint → Bool} {f : List Nat → Option Hint}
    (h : ∀ indices, Option.all p (f indices) = true) :
    Option.all p (scan3 f) = true := by
  unfold scan3
  have hrow : Option.all p ((List.range 9).findSome? fun row => f (getRowIndices row)) = true :=
    optAll_findSome? fun x _ => h _
  have hcol : Option.all p ((List.range 9).findSome? fun col => f (getColIndices col)) = true :=
    optAll_findSome? fun x _ => h _
  have hbox : Option.all p ((List.range 3).findSome? fun boxRow =>
      (List.range 3).findSome? fun boxCol => f (getBoxIndices boxRow boxCol)) = true :=
    optAll_findSome? fun x _ => optAll_findSome? fun y _ => h _
  split
  · next heq => rw [heq] at hrow; simpa using hrow
  · split
    · next heq => rw [heq] at hcol; simpa using hcol
    · exact hbox

lemma nakedPairsUnit_removes (grid : Grid) (cands : List (List Nat)) (notes : Notes)
    (indices : List Nat) :
    Option.all hintRemoves (nakedPairsUnit grid cands notes indices) = true := by
  unfold nakedPairsUnit
  apply optAll_findSome?
  intro pr _
  dsimp only
  repeat' split
  all_goals try rfl
  all_goals rename_i hne; simpa [hintRemoves] using hne

lemma optAll_matchOr {p : Hint → Bool} (o1 o2 : Option Hint)
    (h1 : Option.all p o1 = true) (h2 : Option.all p o2 = true) :
    Option.all p (match o1 with | some h => some h | none => o2) = true := by
  cases o1 with
  | some h => simpa using h1
  | none => simpa using h2

lemma nakedTriplesUnit_removes (grid : Grid) (cands : List (List Nat)) (notes : Notes)
    (indices : List Nat) :
    Option.all hintRemoves (nakedTriplesUnit grid cands notes indices) = true := by
  unfold nakedTriplesUnit
  apply optAll_findSome?
  intro tr _
  dsimp only
  repeat' split
  all_goals try rfl
  all_goals rename_i hne; simpa [hintRemoves] using hne

lemma hiddenPairsUnit_removes (grid : Grid) (cands : List (List Nat)) (notes : Notes)
    (indices : List Nat) :
    Option.all hintRemoves (hiddenPairsUnit grid cands notes indices) = true := by
  unfold hiddenPairsUnit
  apply optAll_findSome?
  intro pr _
  dsimp only
  repeat' split
  all_goals try rfl
  all_goals rename_i hne; simpa [hintRemoves] using hne

lemma hiddenTriplesUnit_removes (grid : Grid) (cands : List (List Nat)) (notes : Notes)
    (indices : List Nat) :
    Option.all hintRemoves (hiddenTriplesUnit grid cands notes indices) = true := by
  unfold hiddenTriplesUnit
  apply optAll_findSome?
  intro tr _
  dsimp only
  repeat' split
  all_goals try rfl
  all_goals rename_i hne; simpa [hintRemoves] using hne

lemma optAll_orElseH {p : Hint → Bool} (o1 o2 : Option Hint)
    (h1 : Option.all p o1 = true) (h2 : Option.all p o2 = true) :
    Option.all p (orElseH o1 o2) = true := by
  unfold orElseH
  cases o1 with
  | some h => simpa using h1
  | none => simpa using h2

lemma pointingRowCase_removes (cands : List (List Nat)) (notes : Notes)
    (boxIndices cellsWithNum : List Nat) (num : Nat) :
    Option.all hintRemoves (pointingRowCase cands notes boxIndices cellsWithNum num) = true := by
  unfold pointingRowCase
  split
  case h_2 => rfl
  case h_1 row heq =>
    dsimp only
    split
    · rename_i hne
      simpa [hintRemoves] using hne
    · rfl

lemma pointingColCase_removes (cands : List (List Nat)) (notes : Notes)
    (boxIndices cellsWithNum : List Nat) (num : Nat) :
    Option.all hintRemoves (pointingColCase cands notes boxIndices cellsWithNum num) = true := by
  unfold pointingColCase
  split
  case h_2 => rfl
  case h_1 col heq =>
    dsimp only
    split
    · rename_i hne
      simpa [hintRemoves] using hne
    · rfl

lemma findPointingPairs_removes (grid : Grid) (cands : List (List Nat)) (notes : Notes) :
    Option.all hintRemoves (findPointingPairs grid cands notes) = true := by
  unfold findPointingPairs
  apply optAll_findSome?
  intro boxRow _
  apply optAll_findSome?
  intro boxCol _
  dsimp only
  apply optAll_findSome?
  intro num _
  dsimp only
  split
  · rfl
  · split
    · rfl
    · exact optAll_orElseH _ _ (pointingRowCase_removes _ _ _ _ _)
        (pointingColCase_removes _ _ _ _ _)

lemma xwingRowsCase_removes (cands : List (List Nat)) (notes : Notes) (num : Nat) :
    Option.all hintRemoves (xwingRowsCase cands notes num) = true := by
  unfold xwingRowsCase
  apply optAll_findSome?
  intro row1 _
  dsimp only
  split
  · rfl
  · apply optAll_findSome?
    intro row2 _
    dsimp only
    split
    · rfl
    · split
      · rfl
      · split
        · split
          · rename_i hne
            simpa [hintRemoves] using hne
          · rfl
        · rfl

lemma xwingColsCase_removes (cands : List (List Nat)) (notes : Notes) (num : Nat) :
    Option.all hintRemoves (xwingColsCase cands notes num) = true := by
  unfold xwingColsCase
  apply optAll_findSome?
  intro col1 _
  dsimp only
  split
  · rfl
  · apply optAll_findSome?
    intro col2 _
    dsimp only
    split
    · rfl
    · split
      · rfl
      · split
        · split
          · rename_i hne
            simpa [hintRemoves] using hne
          · rfl
        · rfl

lemma findXWing_removes (grid : Grid) (cands : List (List Nat)) (notes : Notes) :
    Option.all hintRemoves (findXWing grid cands notes) = true := by
  unfold findXWing
  dsimp only
  apply optAll_findSome?
  intro num _
  exact optAll_orElseH _ _ (xwingRowsCase_removes _ _ _) (xwingColsCase_removes _ _ _)

lemma ywingCase_removes (grid : Grid) (cands : List (List Nat)) (notes : Notes)
    (pivot wing1 wing2 x y : Nat) :
    Option.all hintRemoves (ywingCase grid cands notes pivot wing1 wing2 x y) = true := by
  unfold ywingCase
  split
  · split
    case h_2 => rfl
    case h_1 c1 c2 heq1 heq2 =>
      split
      · dsimp only
        split
        · rename_i hne
          simpa [hintRemoves] using hne
        · rfl
      · rfl
  · rfl

lemma findYWing_removes (grid : Grid) (cands : List (List Nat)) (notes : Notes) :
    Option.all hintRemoves (findYWing grid cands notes) = true := by
  unfold findYWing
  dsimp only
  apply optAll_findSome?
  intro pivot _
  dsimp only
  apply optAll_findSome?
  intro wpr _
  exact optAll_orElseH _ _ (ywingCase_removes _ _ _ _ _ _ _ _)
    (ywingCase_removes _ _ _ _ _ _ _ _)

lemma swordfishRowsCase_removes (cands : List (List Nat)) (notes : Notes) (num : Nat) :
    Option.all hintRemoves (swordfishRowsCase cands notes num) = true := by
  unfold swordfishRowsCase
  dsimp only
  apply optAll_findSome?
  intro tr _
  dsimp only
  split
  · split
    · rename_i hne
      simpa [hintRemoves] using hne
    · rfl
  · rfl

lemma swordfishColsCase_removes (cands : List (List Nat)) (notes : Notes) (num : Nat) :
    Option.all hintRemoves (swordfishColsCase cands notes num) = true := by
  unfold swordfishColsCase
  dsimp only
  apply optAll_findSome?
  intro tr _
  dsimp only
  split
  · split
    · rename_i hne
      simpa [hintRemoves] using hne
    · rfl
  · rfl

lemma findSwordfish_removes (grid : Grid) (cands : List (List Nat)) (notes : Notes) :
    Option.all hintRemoves (findSwordfish grid cands notes) = true := by
  unfold findSwordfish
  dsimp only
  apply optAll_findSome?
  intro num _
  exact optAll_orElseH _ _ (swordfishRowsCase_removes _ _ _) (swordfishColsCase_removes _ _ _)


lemma findLastFreeCell_keeps (grid : Grid) (cands : List (List Nat)) :
    Option.all hintKeeps (findLastFreeCell grid cands) = true := by
  unfold findLastFreeCell
  apply optAll_scan3
  intro indices
  unfold lastFreeCellUnit
  repeat' split
  all_goals rfl

lemma findNakedSingle_keeps (grid : Grid) (cands : List (List Nat)) :
    Option.all hintKeeps (findNakedSingle grid cands) = true := by
  unfold findNakedSingle
  apply optAll_findSome?
  intro i _
  dsimp only
  repeat' split
  all_goals rfl

lemma findHiddenSingle_keeps (grid : Grid) (cands : List (List Nat)) :
    Option.all hintKeeps (findHiddenSingle grid cands) = true := by
  unfold findHiddenSingle
  apply optAll_scan3
  intro indices
  unfold hiddenSingleUnit
  apply optAll_findSome?
  intro num _
  dsimp only
  repeat' split
  all_goals rfl

/-- C6: the eight pair/triple/wing/fish detectors only ever return hints
with a non-empty `notesToRemove` list (a structurally valid pattern whose
elimination touches no player note is skipped), while Last Free Cell,
Naked Single and Hidden Single hints never carry note removals and are
surfaced unconditionally by their scans. -/
theorem claim_C6_elimination_hints_touch_notes (grid : Grid)
    (cands : List (List Nat)) (notes : Notes) :
    (Option.all hintRemoves (findPointingPairs grid cands notes) = true ∧
     Option.all hintRemoves (findNakedPairs grid cands notes) = true ∧
     Option.all hintRemoves (findHiddenPairs grid cands notes) = true ∧
     Option.all hintRemoves (findNakedTriples grid cands notes) = true ∧
     Option.all hintRemoves (findHiddenTriples grid cands notes) = true ∧
     Option.all hintRemoves (findXWing grid cands notes) = true ∧
     Option.all hintRemoves (findYWing grid cands notes) = true ∧
     Option.all hintRemoves (findSwordfish grid cands notes) = true) ∧
    (Option.all hintKeeps (findLastFreeCell grid cands) = true ∧
     Option.all hintKeeps (findNakedSingle grid cands) = true ∧
     Option.all hintKeeps (findHiddenSingle grid cands) = true) :=
  ⟨⟨findPointingPairs_removes grid cands notes,
    optAll_scan3 (nakedPairsUnit_removes grid cands notes),
    optAll_scan3 (hiddenPairsUnit_removes grid cands notes),
    optAll_scan3 (nakedTriplesUnit_removes grid cands notes),
    optAll_scan3 (hiddenTriplesUnit_removes grid cands notes),
    findXWing_removes grid cands notes,
    findYWing_removes grid cands notes,
    findSwordfish_removes grid cands notes⟩,
   ⟨findLastFreeCell_keeps grid cands,
    findNakedSingle_keeps grid cands,
    findHiddenSingle_keeps grid cands⟩⟩

/-! ### Claim C7: a completed grid yields no hint -/

/-- A grid with zero empty cells among its 81 positions. -/
def isFull (g : Grid) : Bool := (List.range 81).all fun i => !(g.getD i 0 == 0)

lemma isFull_nonzero {g : Grid} (h : isFull g = true) {i : Nat} (hi : i < 81) :
    g.getD i 0 ≠ 0 := by
  have := (List.all_eq_true.mp h) i (List.mem_range.mpr hi)
  simpa using this

lemma mem_rowIndices_lt {row i : Nat} (hrow : row < 9) (h : i ∈ getRowIndices row) :
    i < 81 := by
  unfold getRowIndices at h
  obtain ⟨c, hc, rfl⟩ := List.mem_map.mp h
  have := List.mem_range.mp hc
  omega

lemma mem_colIndices_lt {col i : Nat} (hcol : col < 9) (h : i ∈ getColIndices col) :
    i < 81 := by
  unfold getColIndices at h
  obtain ⟨r, hr, rfl⟩ := List.mem_map.mp h
  have := List.mem_range.mp hr
  omega

lemma mem_boxIndices_lt {br bc i : Nat} (hbr : br < 3) (hbc : bc < 3)
    (h : i ∈ getBoxIndices br bc) : i < 81 := by
  unfold getBoxIndices at h
  obtain ⟨r, hr, hmem⟩ := List.mem_flatMap.mp h
  obtain ⟨c, hc, rfl⟩ := List.mem_map.mp hmem
  have h1 := List.mem_range.mp hr
  have h2 := List.mem_range.mp hc
  omega

lemma allCandidates_full_empty {g : Grid} (n : Notes) (h : isFull g = true) (i : Nat) :
    (getAllCandidates g n).getD i [] = [] := by
  unfold getAllCandidates
  by_cases hi : i < 81
  · rw [List.getD_eq_getElem?_getD, List.getElem?_map, List.getElem?_range hi]
    show getCandidates g n i = []
    unfold getCandidates
    rw [if_pos (isFull_nonzero h hi)]
  · rw [List.getD_eq_getElem?_getD]
    have : ((List.range 81).map fun i => getCandidates g n i).length = 81 := by
      simp
    rw [List.getElem?_eq_none (by omega)]
    rfl

lemma scan3_none {f : List Nat → Option Hint}
    (hrow : ∀ row, row < 9 → f (getRowIndices row) = none)
    (hcol : ∀ col, col < 9 → f (getColIndices col) = none)
    (hbox : ∀ br bc, br < 3 → bc < 3 → f (getBoxIndices br bc) = none) :
    scan3 f = none := by
  unfold scan3
  have h1 : ((List.range 9).findSome? fun row => f (getRowIndices row)) = none :=
    List.findSome?_eq_none_iff.mpr fun x hx => hrow x (List.mem_range.mp hx)
  have h2 : ((List.range 9).findSome? fun col => f (getColIndices col)) = none :=
    List.findSome?_eq_none_iff.mpr fun x hx => hcol x (List.mem_range.mp hx)
  have h3 : ((List.range 3).findSome? fun boxRow =>
      (List.range 3).findSome? fun boxCol => f (getBoxIndices boxRow boxCol)) = none :=
    List.findSome?_eq_none_iff.mpr fun x hx =>
      List.findSome?_eq_none_iff.mpr fun y hy =>
        hbox x y (List.mem_range.mp hx) (List.mem_range.mp hy)
  rw [h1, h2, h3]

lemma full_filter_empty_unit {g : Grid} (h : isFull g = true) {indices : List Nat}
    (hb : ∀ i ∈ indices, i < 81) :
    indices.filter (fun i => g.getD i 0 == 0) = [] :=
  List.filter_eq_nil_iff.mpr fun a ha => by
    simpa using isFull_nonzero h (hb a ha)

lemma findInvalidNotes_full {g : Grid} (n : Notes) (c : List (List Nat))
    (h : isFull g = true) : findInvalidNotes g n c = none := by
  unfold findInvalidNotes
  exact List.findSome?_eq_none_iff.mpr fun i hi => by
    rw [if_pos (isFull_nonzero h (List.mem_range.mp hi))]

lemma lastFreeCellUnit_full {g : Grid} (c : List (List Nat)) {indices : List Nat}
    (h : isFull g = true) (hb : ∀ i ∈ indices, i < 81) :
    lastFreeCellUnit g c indices = none := by
  unfold lastFreeCellUnit
  rw [full_filter_empty_unit h hb]

lemma findLastFreeCell_full {g : Grid} (c : List (List Nat)) (h : isFull g = true) :
    findLastFreeCell g c = none := by
  unfold findLastFreeCell
  exact scan3_none
    (fun row hrow => lastFreeCellUnit_full c h fun i hi => mem_rowIndices_lt hrow hi)
    (fun col hcol => lastFreeCellUnit_full c h fun i hi => mem_colIndices_lt hcol hi)
    (fun br bc hbr hbc => lastFreeCellUnit_full c h fun i hi => mem_boxIndices_lt hbr hbc hi)

lemma findNakedSingle_full {g : Grid} (c : List (List Nat)) (h : isFull g = true) :
    findNakedSingle g c = none := by
  unfold findNakedSingle
  exact List.findSome?_eq_none_iff.mpr fun i hi => by
    rw [if_pos (isFull_nonzero h (List.mem_range.mp hi))]

lemma hiddenSingleUnit_none {g : Grid} {c : List (List Nat)} {indices : List Nat}
    (hc : ∀ i, c.getD i [] = []) : hiddenSingleUnit g c indices = none := by
  unfold hiddenSingleUnit
  refine List.findSome?_eq_none_iff.mpr fun num _ => ?_
  split
  · rfl
  · have : indices.filter (fun i => (c.getD i []).contains num) = [] :=
      List.filter_eq_nil_iff.mpr fun a _ => by rw [hc a]; simp
    rw [this]

lemma findHiddenSingle_none {g : Grid} {c : List (List Nat)}
    (hc : ∀ i, c.getD i [] = []) : findHiddenSingle g c = none := by
  unfold findHiddenSingle
  exact scan3_none (fun _ _ => hiddenSingleUnit_none hc)
    (fun _ _ => hiddenSingleUnit_none hc) (fun _ _ _ _ => hiddenSingleUnit_none hc)

lemma nakedPairsUnit_full {g : Grid} (c : List (List Nat)) (n : Notes)
    {indices : List Nat} (h : isFull g = true) (hb : ∀ i ∈ indices, i < 81) :
    nakedPairsUnit g c n indices = none := by
  unfold nakedPairsUnit
  have he : indices.filter (fun i => g.getD i 0 == 0 && (c.getD i []).length == 2) = [] :=
    List.filter_eq_nil_iff.mpr fun a ha => by
      have hnz := isFull_nonzero h (hb a ha)
      rw [List.getD_eq_getElem?_getD] at hnz
      simp [hnz]
  rw [he]
  rfl

lemma nakedTriplesUnit_full {g : Grid} (c : List (List Nat)) (n : Notes)
    {indices : List Nat} (h : isFull g = true) (hb : ∀ i ∈ indices, i < 81) :
    nakedTriplesUnit g c n indices = none := by
  unfold nakedTriplesUnit
  have he : indices.filter (fun i => g.getD i 0 == 0 &&
      2 ≤ (c.getD i []).length && (c.getD i []).length ≤ 3) = [] :=
    List.filter_eq_nil_iff.mpr fun a ha => by
      have hnz := isFull_nonzero h (hb a ha)
      rw [List.getD_eq_getElem?_getD] at hnz
      simp [hnz]
  rw [he]
  rfl

lemma hiddenPairsUnit_full {g : Grid} (c : List (List Nat)) (n : Notes)
    {indices : List Nat} (h : isFull g = true) (hb : ∀ i ∈ indices, i < 81) :
    hiddenPairsUnit g c n indices = none := by
  unfold hiddenPairsUnit
  rw [full_filter_empty_unit h hb]
  exact List.findSome?_eq_none_iff.mpr fun pr _ => rfl

lemma hiddenTriplesUnit_full {g : Grid} (c : List (List Nat)) (n : Notes)
    {indices : List Nat} (h : isFull g = true) (hb : ∀ i ∈ indices, i < 81) :
    hiddenTriplesUnit g c n indices = none := by
  unfold hiddenTriplesUnit
  rw [full_filter_empty_unit h hb]
  exact List.findSome?_eq_none_iff.mpr fun tr _ => rfl

lemma findPointingPairs_none {g : Grid} {c : List (List Nat)} (n : Notes)
    (hc : ∀ i, c.getD i [] = []) : findPointingPairs g c n = none := by
  unfold findPointingPairs
  refine List.findSome?_eq_none_iff.mpr fun boxRow _ => ?_
  refine List.findSome?_eq_none_iff.mpr fun boxCol _ => ?_
  refine List.findSome?_eq_none_iff.mpr fun num _ => ?_
  dsimp only
  split
  · rfl
  · have he : (getBoxIndices boxRow boxCol).filter
        (fun i => (c.getD i []).contains num) = [] :=
      List.filter_eq_nil_iff.mpr fun a _ => by rw [hc a]; simp
    rw [he]
    rfl

lemma xwingRowsCase_none {c : List (List Nat)} (n : Notes) (num : Nat)
    (hc : ∀ i, c.getD i [] = []) : xwingRowsCase c n num = none := by
  unfold xwingRowsCase
  refine List.findSome?_eq_none_iff.mpr fun row1 _ => ?_
  dsimp only
  have he : (getRowIndices row1).filter (fun i => (c.getD i []).contains num) = [] :=
    List.filter_eq_nil_iff.mpr fun a _ => by rw [hc a]; simp
  rw [he]
  rfl

lemma xwingColsCase_none {c : List (List Nat)} (n : Notes) (num : Nat)
    (hc : ∀ i, c.getD i [] = []) : xwingColsCase c n num = none := by
  unfold xwingColsCase
  refine List.findSome?_eq_none_iff.mpr fun col1 _ => ?_
  dsimp only
  have he : (getColIndices col1).filter (fun i => (c.getD i []).contains num) = [] :=
    List.filter_eq_nil_iff.mpr fun a _ => by rw [hc a]; simp
  rw [he]
  rfl

lemma findXWing_none {g : Grid} {c : List (List Nat)} (n : Notes)
    (hc : ∀ i, c.getD i [] = []) : findXWing g c n = none := by
  unfold findXWing
  dsimp only
  refine List.findSome?_eq_none_iff.mpr fun num _ => ?_
  rw [xwingRowsCase_none n num hc, xwingColsCase_none n num hc]
  rfl

lemma findYWing_full {g : Grid} (c : List (List Nat)) (n : Notes)
    (h : isFull g = true) : findYWing g c n = none := by
  unfold findYWing
  have he : (List.range 81).filter
      (fun i => g.getD i 0 == 0 && (c.getD i []).length == 2) = [] :=
    List.filter_eq_nil_iff.mpr fun a ha => by
      have hnz := isFull_nonzero h (List.mem_range.mp ha)
      rw [List.getD_eq_getElem?_getD] at hnz
      simp [hnz]
  rw [he]
  rfl

lemma swordfishRowsCase_none {c : List (List Nat)} (n : Notes) (num : Nat)
    (hc : ∀ i, c.getD i [] = []) : swordfishRowsCase c n num = none := by
  unfold swordfishRowsCase
  have he : ((List.range 9).filterMap fun row =>
      let cols := ((getRowIndices row).filter fun i =>
        (c.getD i []).contains num).map fun i => i % 9
      if 2 ≤ cols.length && cols.length ≤ 3 then some (row, cols) else none) = [] := by
    refine List.filterMap_eq_nil_iff.mpr fun row _ => ?_
    have hfe : (getRowIndices row).filter (fun i => (c.getD i []).contains num) = [] :=
      List.filter_eq_nil_iff.mpr fun a _ => by rw [hc a]; simp
    dsimp only
    rw [hfe]
    rfl
  rw [he]
  rfl

lemma swordfishColsCase_none {c : List (List Nat)} (n : Notes) (num : Nat)
    (hc : ∀ i, c.getD i [] = []) : swordfishColsCase c n num = none := by
  unfold swordfishColsCase
  have he : ((List.range 9).filterMap fun col =>
      let rows := ((getColIndices col).filter fun i =>
        (c.getD i []).contains num).map fun i => i / 9
      if 2 ≤ rows.length && rows.length ≤ 3 then some (col, rows) else none) = [] := by
    refine List.filterMap_eq_nil_iff.mpr fun col _ => ?_
    have hfe : (getColIndices col).filter (fun i => (c.getD i []).contains num) = [] :=
      List.filter_eq_nil_iff.mpr fun a _ => by rw [hc a]; simp
    dsimp only
    rw [hfe]
    rfl
  rw [he]
  rfl

lemma findSwordfish_none {g : Grid} {c : List (List Nat)} (n : Notes)
    (hc : ∀ i, c.getD i [] = []) : findSwordfish g c n = none := by
  unfold findSwordfish
  dsimp only
  refine List.findSome?_eq_none_iff.mpr fun num _ => ?_
  rw [swordfishRowsCase_none n num hc, swordfishColsCase_none n num hc]
  rfl

/-- C7: on a grid with zero empty cells that is consistent (no
row/column/box duplicates), `getHint` returns none for every notes array:
every detector finds no empty cell or candidate to act on. -/
theorem claim_C7_full_grid_no_hint (g sol : Grid) (n : Notes)
    (hfull : isFull g = true) (hvalid : isValidGrid g = true) :
    getHint g sol n = none := by
  have hc : ∀ i, (getAllCandidates g n).getD i [] = [] :=
    allCandidates_full_empty n hfull
  have hrowb : ∀ row, row < 9 → ∀ i ∈ getRowIndices row, i < 81 :=
    fun row hrow i hi => mem_rowIndices_lt hrow hi
  have hcolb : ∀ col, col < 9 → ∀ i ∈ getColIndices col, i < 81 :=
    fun col hcol i hi => mem_colIndices_lt hcol hi
  have hboxb : ∀ br bc, br < 3 → bc < 3 → ∀ i ∈ getBoxIndices br bc, i < 81 :=
    fun br bc hbr hbc i hi => mem_boxIndices_lt hbr hbc hi
  unfold getHint
  dsimp only
  rw [findInvalidNotes_full n _ hfull]
  rw [findLastFreeCell_full _ hfull]
  rw [findNakedSingle_full _ hfull]
  rw [findHiddenSingle_none hc]
  rw [findPointingPairs_none n hc]
  rw [show findNakedPairs g (getAllCandidates g n) n = none from
    scan3_none (fun row hrow => nakedPairsUnit_full _ n hfull (hrowb row hrow))
      (fun col hcol => nakedPairsUnit_full _ n hfull (hcolb col hcol))
      (fun br bc hbr hbc => nakedPairsUnit_full _ n hfull (hboxb br bc hbr hbc))]
  rw [show findHiddenPairs g (getAllCandidates g n) n = none from
    scan3_none (fun row hrow => hiddenPairsUnit_full _ n hfull (hrowb row hrow))
      (fun col hcol => hiddenPairsUnit_full _ n hfull (hcolb col hcol))
      (fun br bc hbr hbc => hiddenPairsUnit_full _ n hfull (hboxb br bc hbr hbc))]
  rw [show findNakedTriples g (getAllCandidates g n) n = none from
    scan3_none (fun row hrow => nakedTriplesUnit_full _ n hfull (hrowb row hrow))
      (fun col hcol => nakedTriplesUnit_full _ n hfull (hcolb col hcol))
      (fun br bc hbr hbc => nakedTriplesUnit_full _ n hfull (hboxb br bc hbr hbc))]
  rw [show findHiddenTriples g (getAllCandidates g n) n = none from
    scan3_none (fun row hrow => hiddenTriplesUnit_full _ n hfull (hrowb row hrow))
      (fun col hcol => hiddenTriplesUnit_full _ n hfull (hcolb col hcol))
      (fun br bc hbr hbc => hiddenTriplesUnit_full _ n hfull (hboxb br bc hbr hbc))]
  rw [findXWing_none n hc]
  rw [findYWing_full _ n hfull]
  rw [findSwordfish_none n hc]

/-- A concrete completed valid grid (cyclic construction), used as a
witness input. -/
def solvedGrid : Grid :=
  [1, 2, 3, 4, 5, 6, 7, 8, 9,
   4, 5, 6, 7, 8, 9, 1, 2, 3,
   7, 8, 9, 1, 2, 3, 4, 5, 6,
   2, 3, 4, 5, 6, 7, 8, 9, 1,
   5, 6, 7, 8, 9, 1, 2, 3, 4,
   8, 9, 1, 2, 3, 4, 5, 6, 7,
   3, 4, 5, 6, 7, 8, 9, 1, 2,
   6, 7, 8, 9, 1, 2, 3, 4, 5,
   9, 1, 2, 3, 4, 5, 6, 7, 8]

/-- Witness for C7 at a concrete completed grid. -/
theorem claim_C7_full_grid_no_hint_witness :
    (isFull solvedGrid = true ∧ isValidGrid solvedGrid = true) ∧
      getHint solvedGrid [] [] = none :=
  ⟨⟨by decide, by decide⟩,
   claim_C7_full_grid_no_hint solvedGrid [] [] (by decide) (by decide)⟩

/-! ### Claim C8: naked single selection -/

lemma findSome?_range_first {α : Type} (f : Nat → Option α) {X : Nat} {a : α}
    (hbefore : ∀ y, y < X → f y = none) (hfX : f X = some a) :
    ∀ n, X < n → (List.range n).findSome? f = some a := by
  intro n
  induction n with
  | zero => intro h; exact absurd h (Nat.not_lt_zero X)
  | succ m ih =>
    intro h
    rw [List.range_succ, List.findSome?_append]
    by_cases hm : X < m
    · rw [ih hm]
      rfl
    · have hXm : X = m := by omega
      subst hXm
      have h1 : (List.range X).findSome? f = none :=
        List.findSome?_eq_none_iff.mpr fun y hy => hbefore y (List.mem_range.mp hy)
      rw [h1]
      simp [List.findSome?_cons, hfX]

lemma findNakedSingle_first {g : Grid} {c : List (List Nat)} {X v : Nat}
    (hX : X < 81) (hempty : g.getD X 0 = 0) (hcand : c.getD X [] = [v])
    (hmin : ∀ Y, Y < X → ¬(g.getD Y 0 = 0 ∧ (c.getD Y []).length = 1)) :
    findNakedSingle g c =
      some { cellIndex := X, value := v, technique := "Naked Single",
             notesToRemove := [] } := by
  unfold findNakedSingle
  refine findSome?_range_first _ ?_ ?_ 81 hX
  · intro y hy
    have hm := hmin y hy
    by_cases hz : g.getD y 0 = 0
    · rw [if_neg (not_not_intro hz)]
      have hlen : (c.getD y []).length ≠ 1 := fun hl => hm ⟨hz, hl⟩
      cases hcd : c.getD y [] with
      | nil => rfl
      | cons w t =>
        cases t with
        | nil => exact absurd (by rw [hcd]; rfl) hlen
        | cons w2 t2 => rfl
    · rw [if_pos hz]
  · rw [if_neg (not_not_intro hempty), hcand]

/-- C8 (amended): if no Invalid Notes and no Last Free Cell hint exists
anywhere, and `X` is the least-index empty cell whose candidate set is the
singleton `[v]`, then `getHint` returns the Naked Single hint for `X` with
value `v`.  (The amendment adds the least-index condition: when several
naked singles exist, the fixed scan returns the one at the smallest cell
index, not an arbitrary one.) -/
theorem claim_C8_naked_single_first (g sol : Grid) (n : Notes) (X v : Nat)
    (h1 : findInvalidNotes g n (getAllCandidates g n) = none)
    (h2 : findLastFreeCell g (getAllCandidates g n) = none)
    (hX : X < 81) (hempty : g.getD X 0 = 0)
    (hcand : (getAllCandidates g n).getD X [] = [v])
    (hmin : ∀ Y, Y < X →
      ¬(g.getD Y 0 = 0 ∧ ((getAllCandidates g n).getD Y []).length = 1)) :
    getHint g sol n =
      some { cellIndex := X, value := v, technique := "Naked Single",
             notesToRemove := [] } := by
  unfold getHint
  dsimp only
  rw [h1, h2, findNakedSingle_first hX hempty hcand hmin]

/-- A grid with two simultaneous naked singles: cell 0 and cell 40 both
have the singleton candidate set 9, no unit has exactly one empty cell,
and there are no notes. -/
def gridTwoSingles : Grid :=
  [0, 1, 2, 3, 4, 0, 0, 0, 0,
   5, 7, 8, 0, 0, 0, 0, 0, 0,
   6, 0, 0, 0, 0, 0, 0, 0, 0,
   0, 0, 0, 6, 7, 8, 0, 0, 0,
   1, 2, 3, 0, 0, 0, 0, 0, 0,
   0, 0, 0, 0, 0, 0, 0, 0, 0,
   0, 0, 0, 0, 0, 0, 0, 0, 0,
   0, 0, 0, 0, 0, 0, 0, 0, 0,
   0, 0, 0, 0, 5, 0, 0, 0, 0]

/-- Counterexample to C8 as stated: cell 40 of `gridTwoSingles` is empty
with singleton candidate set 9, and neither Invalid Notes nor Last Free
Cell applies anywhere, yet `getHint` does not return a Naked Single for
cell 40 — it returns the one at the smaller index 0. -/
theorem claim_C8_counterexample :
    (gridTwoSingles.getD 40 0 = 0 ∧
     getCandidates gridTwoSingles [] 40 = [9] ∧
     findInvalidNotes gridTwoSingles [] (getAllCandidates gridTwoSingles []) = none ∧
     findLastFreeCell gridTwoSingles (getAllCandidates gridTwoSingles []) = none) ∧
    getHint gridTwoSingles [] [] =
      some { cellIndex := 0, value := 9, technique := "Naked Single",
             notesToRemove := [] } ∧
    getHint gridTwoSingles [] [] ≠
      some { cellIndex := 40, value := 9, technique := "Naked Single",
             notesToRemove := [] } :=
  ⟨⟨by decide, by decide, by decide, by decide⟩, by decide, by decide⟩

/-- Witness for the amended C8 at a concrete grid. -/
theorem claim_C8_naked_single_first_witness :
    (findInvalidNotes gridTwoSingles [] (getAllCandidates gridTwoSingles []) = none ∧
     findLastFreeCell gridTwoSingles (getAllCandidates gridTwoSingles []) = none ∧
     0 < 81 ∧ gridTwoSingles.getD 0 0 = 0 ∧
     (getAllCandidates gridTwoSingles []).getD 0 [] = [9]) ∧
    getHint gridTwoSingles [] [] =
      some { cellIndex := 0, value := 9, technique := "Naked Single",
             notesToRemove := [] } :=
  ⟨⟨by decide, by decide, by decide, by decide, by decide⟩,
   claim_C8_naked_single_first gridTwoSingles [] [] 0 9 (by decide) (by decide)
     (by decide) (by decide) (by decide)
     (fun Y hY => absurd hY (Nat.not_lt_zero Y))⟩

/-! ### Claims C3, C4, C9: backtracking generation theory -/

/-- Two cells share a row, a column, or a 3x3 box. -/
def SameUnit (i j : Nat) : Prop :=
  i / 9 = j / 9 ∨ i % 9 = j % 9 ∨ (i / 9 / 3 = j / 9 / 3 ∧ i % 9 / 3 = j % 9 / 3)

lemma canPlace_spec {grid : Grid} {row col num : Nat}
    (h : canPlace grid row col num = true) :
    ∀ i, i < 81 → SameUnit i (row * 9 + col) → col < 9 → grid.getD i 0 ≠ num := by
  unfold canPlace at h
  rw [Bool.and_eq_true, Bool.and_eq_true] at h
  obtain ⟨⟨hrow, hcol⟩, hbox⟩ := h
  rw [List.all_eq_true] at hrow hcol
  rw [List.all_eq_true] at hbox
  intro i hi hsu hcol9
  rcases hsu with hr | hc | ⟨hbr, hbc⟩
  · have := hrow (i % 9) (List.mem_range.mpr (Nat.mod_lt i (by norm_num)))
    have hieq : row * 9 + i % 9 = i := by omega
    rw [hieq] at this
    simpa using this
  · have := hcol (i / 9) (List.mem_range.mpr (by omega))
    have hieq : i / 9 * 9 + col = i := by omega
    rw [hieq] at this
    simpa using this
  · have := hbox (i / 9 % 3) (List.mem_range.mpr (Nat.mod_lt _ (by norm_num)))
    rw [List.all_eq_true] at this
    have h2 := this (i % 9 % 3) (List.mem_range.mpr (Nat.mod_lt _ (by norm_num)))
    have hieq : (row / 3 * 3 + i / 9 % 3) * 9 + (col / 3 * 3 + i % 9 % 3) = i := by
      omega
    rw [hieq] at h2
    simpa using h2

/-- The search relation of the backtracking solver: `g` is reachable from
`grid` by placing, at positions `pos, pos+1, ...` (`fuel` many), digits
that satisfy `canPlace` at placement time. -/
def Fills : Nat → Nat → Grid → Grid → Prop
  | 0, _, grid, g => g = grid
  | fuel + 1, pos, grid, g =>
    ∃ num, num ∈ digits ∧ canPlace grid (pos / 9) (pos % 9) num = true ∧
      Fills fuel (pos + 1) (grid.set pos num) g

/-- Executable check that `g` extends `grid` cell by cell under the
`canPlace` discipline. -/
def fillsChk : Nat → Nat → Grid → Grid → Bool
  | 0, _, grid, g => grid == g
  | fuel + 1, pos, grid, g =>
    (digits.contains (g.getD pos 0) &&
      canPlace grid (pos / 9) (pos % 9) (g.getD pos 0)) &&
      fillsChk fuel (pos + 1) (grid.set pos (g.getD pos 0)) g

lemma fillsChk_sound : ∀ fuel pos grid g,
    fillsChk fuel pos grid g = true → Fills fuel pos grid g := by
  intro fuel
  induction fuel with
  | zero =>
    intro pos grid g h
    unfold fillsChk at h
    exact (beq_iff_eq.mp h).symm
  | succ f ih =>
    intro pos grid g h
    unfold fillsChk at h
    rw [Bool.and_eq_true, Bool.and_eq_true] at h
    obtain ⟨⟨hmem, hcp⟩, hrest⟩ := h
    exact ⟨g.getD pos 0, by simpa using hmem, hcp, ih _ _ _ hrest⟩

/-- The concrete solved grid is a valid completion of the empty grid. -/
lemma fills_empty_solvedGrid : Fills 81 0 empty81 solvedGrid :=
  fillsChk_sound 81 0 empty81 solvedGrid (by decide)

section GenericSolver

variable {σ : Type} {shuf : List Nat → σ → List Nat × σ}

lemma solveCellsG_sound (hshuf : ∀ l s, ((shuf l s).1).Perm l) :
    ∀ fuel pos grid s g s2,
      solveCellsG shuf fuel pos grid s = (some g, s2) → Fills fuel pos grid g := by
  intro fuel
  induction fuel with
  | zero =>
    intro pos grid s g s2 h
    unfold solveCellsG at h
    simp only [Prod.mk.injEq, Option.some.injEq] at h
    exact h.1.symm
  | succ f ih =>
    intro pos grid s g s2 h
    unfold solveCellsG at h
    have aux : ∀ nums, (∀ x ∈ nums, x ∈ digits) → ∀ s1 g1 s3,
        tryNumsG shuf f pos nums grid s1 = (some g1, s3) →
        ∃ num, num ∈ digits ∧ canPlace grid (pos / 9) (pos % 9) num = true ∧
          Fills f (pos + 1) (grid.set pos num) g1 := by
      intro nums
      induction nums with
      | nil =>
        intro _ s1 g1 s3 h2
        unfold tryNumsG at h2
        simp at h2
      | cons num rest ihn =>
        intro hmem s1 g1 s3 h2
        unfold tryNumsG at h2
        by_cases hcp : canPlace grid (pos / 9) (pos % 9) num = true
        · rw [if_pos hcp] at h2
          cases hrec : solveCellsG shuf f (pos + 1) (grid.set pos num) s1 with
          | mk o s4 =>
            rw [hrec] at h2
            cases o with
            | some g2 =>
              dsimp only at h2
              simp only [Prod.mk.injEq, Option.some.injEq] at h2
              obtain ⟨hg, _⟩ := h2
              subst hg
              exact ⟨num, hmem num (List.mem_cons_self num rest), hcp,
                ih _ _ _ _ _ hrec⟩
            | none =>
              dsimp only at h2
              exact ihn (fun x hx => hmem x (List.mem_cons_of_mem num hx)) _ _ _ h2
        · rw [if_neg hcp] at h2
          exact ihn (fun x hx => hmem x (List.mem_cons_of_mem num hx)) _ _ _ h2
    exact aux (shuf digits s).1 (fun x hx => (hshuf digits s).mem_iff.mp hx) _ _ _ h

lemma solveCellsG_complete (hshuf : ∀ l s, ((shuf l s).1).Perm l) :
    ∀ fuel pos grid s,
      (solveCellsG shuf fuel pos grid s).1 = none → ¬∃ g, Fills fuel pos grid g := by
  intro fuel
  induction fuel with
  | zero =>
    intro pos grid s h
    unfold solveCellsG at h
    simp at h
  | succ f ih =>
    intro pos grid s h
    unfold solveCellsG at h
    have aux : ∀ nums s1, (tryNumsG shuf f pos nums grid s1).1 = none →
        ∀ num, num ∈ nums → canPlace grid (pos / 9) (pos % 9) num = true →
          ¬∃ g, Fills f (pos + 1) (grid.set pos num) g := by
      intro nums
      induction nums with
      | nil =>
        intro s1 _ num hmem _
        cases hmem
      | cons num0 rest ihn =>
        intro s1 h2 num hmem hcp
        unfold tryNumsG at h2
        by_cases hcp0 : canPlace grid (pos / 9) (pos % 9) num0 = true
        · rw [if_pos hcp0] at h2
          cases hrec : solveCellsG shuf f (pos + 1) (grid.set pos num0) s1 with
          | mk o s4 =>
            rw [hrec] at h2
            cases o with
            | some g2 => simp at h2
            | none =>
              dsimp only at h2
              rcases List.mem_cons.mp hmem with heq | hmemr
              · subst heq
                exact ih _ _ _ (by rw [hrec])
              · exact ihn _ h2 num hmemr hcp
        · rw [if_neg hcp0] at h2
          rcases List.mem_cons.mp hmem with heq | hmemr
          · subst heq
            exact absurd hcp hcp0
          · exact ihn _ h2 num hmemr hcp
    rintro ⟨g, num, hnum, hcp, hfl⟩
    exact aux (shuf digits s).1 _ h num ((hshuf digits s).mem_iff.mpr hnum) hcp ⟨g, hfl⟩

lemma solveCellsG_total (hshuf : ∀ l s, ((shuf l s).1).Perm l) (s : σ) :
    ∃ g s2, solveCellsG shuf 81 0 empty81 s = (some g, s2) ∧ Fills 81 0 empty81 g := by
  cases h : solveCellsG shuf 81 0 empty81 s with
  | mk o s2 =>
    cases o with
    | some g => exact ⟨g, s2, rfl, solveCellsG_sound hshuf 81 0 empty81 s g s2 h⟩
    | none =>
      exact absurd ⟨solvedGrid, fills_empty_solvedGrid⟩
        (solveCellsG_complete hshuf 81 0 empty81 s (by rw [h]))

end GenericSolver

/-! ### Structural properties of completed fills -/

lemma Fills.length_eq : ∀ {fuel pos grid g}, Fills fuel pos grid g →
    g.length = grid.length := by
  intro fuel
  induction fuel with
  | zero =>
    intro pos grid g h
    rw [h]
  | succ f ih =>
    intro pos grid g h
    obtain ⟨num, _, _, hfl⟩ := h
    rw [ih hfl, List.length_set]

lemma Fills.agree_lt : ∀ {fuel pos grid g}, Fills fuel pos grid g →
    ∀ i, i < pos → g.getD i 0 = grid.getD i 0 := by
  intro fuel
  induction fuel with
  | zero =>
    intro pos grid g h i _
    rw [h]
  | succ f ih =>
    intro pos grid g h i hi
    obtain ⟨num, _, _, hfl⟩ := h
    rw [ih hfl i (by omega)]
    rw [List.getD_eq_getElem?_getD, List.getD_eq_getElem?_getD,
      List.getElem?_set_ne (by omega)]

lemma Fills.placed_mem : ∀ {fuel pos grid g}, Fills fuel pos grid g →
    grid.length = 81 → pos + fuel ≤ 81 →
    ∀ i, pos ≤ i → i < pos + fuel → g.getD i 0 ∈ digits := by
  intro fuel
  induction fuel with
  | zero =>
    intro pos grid g _ _ _ i h1 h2
    omega
  | succ f ih =>
    intro pos grid g h hlen hle i h1 h2
    obtain ⟨num, hnum, _, hfl⟩ := h
    by_cases hip : i = pos
    · subst hip
      have hgi : g.getD i 0 = (grid.set i num).getD i 0 :=
        hfl.agree_lt i (by omega)
      rw [hgi, List.getD_eq_getElem?_getD, List.getElem?_set_self (by omega)]
      simpa using hnum
    · exact ih hfl (by rw [List.length_set]; omega) (by omega) i (by omega) (by omega)

lemma Fills.sep : ∀ {fuel pos grid g}, Fills fuel pos grid g →
    grid.length = 81 → pos + fuel ≤ 81 →
    ∀ j, pos ≤ j → j < pos + fuel → ∀ i, i < j → SameUnit i j →
      g.getD i 0 ≠ g.getD j 0 := by
  intro fuel
  induction fuel with
  | zero =>
    intro pos grid g _ _ _ j h1 h2
    omega
  | succ f ih =>
    intro pos grid g h hlen hle j h1 h2 i hij hsu
    obtain ⟨num, hnum, hcp, hfl⟩ := h
    by_cases hjp : j = pos
    · subst hjp
      have hgj : g.getD j 0 = num := by
        rw [hfl.agree_lt j (by omega), List.getD_eq_getElem?_getD,
          List.getElem?_set_self (by omega)]
        rfl
      have hgi : g.getD i 0 = grid.getD i 0 := by
        rw [hfl.agree_lt i (by omega), List.getD_eq_getElem?_getD,
          List.getD_eq_getElem?_getD, List.getElem?_set_ne (by omega)]
      have hj9 : j / 9 * 9 + j % 9 = j := by omega
      have hspec := canPlace_spec hcp i (by omega)
        (by rw [hj9]; exact hsu) (Nat.mod_lt j (by norm_num))
      rw [hgi, hgj]
      exact hspec
    · exact ih hfl (by rw [List.length_set]; omega) (by omega) j (by omega) (by omega)
        i hij hsu

/-! ### Fisher-Yates shuffles are permutations -/

lemma cons_set_perm : ∀ (t : List Nat) k a, k < t.length →
    ((t.getD k 0) :: (t.set k a)).Perm (a :: t) := by
  intro t
  induction t with
  | nil => intro k a h; simp at h
  | cons b s ih =>
    intro k a h
    cases k with
    | zero => exact List.Perm.swap a b s
    | succ m =>
      show (s.getD m 0 :: b :: s.set m a).Perm (a :: b :: s)
      have h1 : (s.getD m 0 :: b :: s.set m a).Perm (b :: s.getD m 0 :: s.set m a) :=
        List.Perm.swap b (s.getD m 0) _
      have h2 : (b :: s.getD m 0 :: s.set m a).Perm (b :: a :: s) :=
        List.Perm.cons b (ih m a (by simpa using h))
      exact (h1.trans h2).trans (List.Perm.swap a b s)

lemma swapL_perm : ∀ (l : List Nat) i j, i < l.length → j < l.length →
    (swapL l i j).Perm l := by
  intro l
  induction l with
  | nil => intro i j h _; simp at h
  | cons a t ih =>
    intro i j hi hj
    cases i with
    | zero =>
      cases j with
      | zero =>
        show (((a :: t).set 0 a).set 0 a).Perm (a :: t)
        exact List.Perm.refl _
      | succ m =>
        show ((t.getD m 0 :: t).set (m + 1) a).Perm (a :: t)
        show (t.getD m 0 :: t.set m a).Perm (a :: t)
        exact cons_set_perm t m a (by simpa using hj)
    | succ k =>
      cases j with
      | zero =>
        show (((a :: t).set (k + 1) a).set 0 (t.getD k 0)).Perm (a :: t)
        show (t.getD k 0 :: t.set k a).Perm (a :: t)
        exact cons_set_perm t k a (by simpa using hi)
      | succ m =>
        show (a :: ((t.set k (t.getD m 0)).set m (t.getD k 0))).Perm (a :: t)
        exact List.Perm.cons a (ih k m (by simpa using hi) (by simpa using hj))

lemma swapL_length (l : List Nat) (i j : Nat) : (swapL l i j).length = l.length := by
  unfold swapL
  rw [List.length_set, List.length_set]

lemma fisherYatesAux_perm {σ : Type} {draw : Nat → σ → Nat × σ}
    (hdraw : ∀ m s, (draw m s).1 ≤ m) :
    ∀ i (l : List Nat) s, i < l.length → ((fisherYatesAux draw i l s).1).Perm l := by
  intro i
  induction i with
  | zero => intro l s _; exact List.Perm.refl _
  | succ k ih =>
    intro l s hi
    unfold fisherYatesAux
    have hj : (draw (k + 1) s).1 ≤ k + 1 := hdraw (k + 1) s
    have hlen : (swapL l (k + 1) (draw (k + 1) s).1).length = l.length :=
      swapL_length l _ _
    have hp1 : ((fisherYatesAux draw k (swapL l (k + 1) (draw (k + 1) s).1)
        (draw (k + 1) s).2).1).Perm (swapL l (k + 1) (draw (k + 1) s).1) :=
      ih _ _ (by omega)
    exact hp1.trans (swapL_perm l (k + 1) _ hi (by omega))

lemma fisherYates_perm {σ : Type} {draw : Nat → σ → Nat × σ}
    (hdraw : ∀ m s, (draw m s).1 ≤ m) (l : List Nat) (s : σ) :
    ((fisherYates draw l s).1).Perm l := by
  unfold fisherYates
  split
  · exact List.Perm.refl _
  · next n heq => exact fisherYatesAux_perm hdraw n l s (by omega)

lemma xor_lt32 {a b : Nat} (ha : a < 4294967296) (hb : b < 4294967296) :
    Nat.xor a b < 4294967296 := by
  have h32 : (4294967296 : Nat) = 2 ^ 32 := by norm_num
  rw [h32] at ha hb ⊢
  exact Nat.xor_lt_two_pow ha hb

lemma shiftRight_lt32 {a : Nat} (n : Nat) (h : a < 4294967296) :
    a >>> n < 4294967296 := by
  rw [Nat.shiftRight_eq_div_pow]
  exact lt_of_le_of_lt (Nat.div_le_self a (2 ^ n)) h

lemma mod_lt32 (a : Nat) : a % 4294967296 < 4294967296 :=
  Nat.mod_lt _ (by norm_num)

lemma rngNext_lt (s : RngS) : (rngNext s).1 < 4294967296 := by
  unfold rngNext
  dsimp only
  apply xor_lt32
  · exact xor_lt32 (mod_lt32 _) (mod_lt32 _)
  · exact shiftRight_lt32 _ (xor_lt32 (mod_lt32 _) (mod_lt32 _))

lemma seededDraw_le (m : Nat) (r : RngS) : (seededDraw m r).1 ≤ m := by
  unfold seededDraw
  dsimp only
  have h : (rngNext r).1 * (m + 1) < (m + 1) * 4294967296 := by
    calc (rngNext r).1 * (m + 1) ≤ (4294967296 - 1) * (m + 1) :=
          Nat.mul_le_mul_right (m + 1) (by have := rngNext_lt r; omega)
      _ < (m + 1) * 4294967296 := by ring_nf; omega
  have h2 := (Nat.div_lt_iff_lt_mul (by norm_num : (0:Nat) < 4294967296)).mpr h
  omega

lemma envDraw_le (env : Env) (m k : Nat) : (envDraw env m k).1 ≤ m := by
  unfold envDraw
  dsimp only
  have hd : env k % 9007199254740992 < 9007199254740992 := Nat.mod_lt _ (by norm_num)
  have h : env k % 9007199254740992 * (m + 1) < (m + 1) * 9007199254740992 := by
    calc env k % 9007199254740992 * (m + 1) ≤ (9007199254740992 - 1) * (m + 1) :=
          Nat.mul_le_mul_right (m + 1) (by omega)
      _ < (m + 1) * 9007199254740992 := by ring_nf; omega
  have h2 := (Nat.div_lt_iff_lt_mul
    (by norm_num : (0:Nat) < 9007199254740992)).mpr h
  omega

lemma shuffleArraySeeded_perm (l : List Nat) (r : RngS) :
    ((shuffleArraySeeded l r).1).Perm l :=
  fisherYates_perm (fun m s => seededDraw_le m s) l r

lemma shuffleArrayEnv_perm (env : Env) (l : List Nat) (k : Nat) :
    ((shuffleArrayEnv env l k).1).Perm l :=
  fisherYates_perm (fun m s => envDraw_le env m s) l k

/-! ### Generated grids: completeness and validity -/

lemma empty81_length : empty81.length = 81 := by
  unfold empty81
  rw [List.length_replicate]

lemma generateSeededGrid_fills (r : RngS) :
    Fills 81 0 empty81 (generateSeededGrid r).1 := by
  obtain ⟨g, s2, heq, hfl⟩ :=
    solveCellsG_total (fun l s => shuffleArraySeeded_perm l s) r
  show Fills 81 0 empty81 ((solveCellsG shuffleArraySeeded 81 0 empty81 r).1.getD empty81)
  rw [heq]
  exact hfl

lemma generateCompleteGrid_fills (env : Env) (k : Nat) :
    Fills 81 0 empty81 (generateCompleteGrid env k).1 := by
  obtain ⟨g, s2, heq, hfl⟩ :=
    solveCellsG_total (fun l s => shuffleArrayEnv_perm env l s) k
  show Fills 81 0 empty81
    ((solveCellsG (shuffleArrayEnv env) 81 0 empty81 k).1.getD empty81)
  rw [heq]
  exact hfl

lemma solveCellsG_isSome_seeded (r : RngS) :
    ((solveCellsG shuffleArraySeeded 81 0 empty81 r).1).isSome = true := by
  obtain ⟨g, s2, heq, _⟩ :=
    solveCellsG_total (fun l s => shuffleArraySeeded_perm l s) r
  rw [heq]
  rfl

lemma solveCellsG_isSome_env (env : Env) (k : Nat) :
    ((solveCellsG (shuffleArrayEnv env) 81 0 empty81 k).1).isSome = true := by
  obtain ⟨g, s2, heq, _⟩ :=
    solveCellsG_total (fun l s => shuffleArrayEnv_perm env l s) k
  rw [heq]
  rfl

lemma fills_length {g : Grid} (h : Fills 81 0 empty81 g) : g.length = 81 := by
  rw [h.length_eq, empty81_length]

lemma fills_val {g : Grid} (h : Fills 81 0 empty81 g) :
    ∀ i, i < 81 → g.getD i 0 ∈ digits := fun i hi =>
  h.placed_mem empty81_length (by omega) i (by omega) (by omega)

lemma fills_sep {g : Grid} (h : Fills 81 0 empty81 g) :
    ∀ j, j < 81 → ∀ i, i < j → SameUnit i j → g.getD i 0 ≠ g.getD j 0 :=
  fun j hj i hij hsu =>
    h.sep empty81_length (by omega) j (by omega) (by omega) i hij hsu

/-! ### Unit value lists -/

/-- The 9 values of a row, in column order. -/
def rowVals (g : Grid) (row : Nat) : List Nat :=
  (List.range 9).map fun col => g.getD (row * 9 + col) 0

/-- The 9 values of a column, in row order. -/
def colVals (g : Grid) (col : Nat) : List Nat :=
  (List.range 9).map fun row => g.getD (row * 9 + col) 0

/-- The 9 values of a box, row-major within the box. -/
def boxVals (g : Grid) (boxRow boxCol : Nat) : List Nat :=
  (List.range 9).map fun k =>
    g.getD ((boxRow * 3 + k / 3) * 9 + (boxCol * 3 + k % 3)) 0

lemma noDups_iff (l : List Nat) :
    noDups l = true ↔ l.Pairwise (fun a b => a ≠ 0 → a ≠ b) := by
  induction l with
  | nil => simp [noDups]
  | cons v rest ih =>
    rw [noDups, Bool.and_eq_true, Bool.or_eq_true, List.pairwise_cons]
    constructor
    · rintro ⟨hv, hrest⟩
      refine ⟨?_, ih.mp hrest⟩
      intro b hb hv0 heq
      rcases hv with h0 | hnc
      · exact hv0 (by simpa using h0)
      · rw [Bool.not_eq_true'] at hnc
        have : v ∈ rest := heq ▸ hb
        simp [this] at hnc
    · rintro ⟨hhead, hrest⟩
      refine ⟨?_, ih.mpr hrest⟩
      by_cases hv0 : v = 0
      · left; simpa using hv0
      · right
        rw [Bool.not_eq_true']
        by_contra hc
        rw [Bool.not_eq_false] at hc
        have hmem : v ∈ rest := by simpa using hc
        exact hhead v hmem hv0 rfl

lemma pairwise_unit_vals (g : Grid)
    (hsep : ∀ j, j < 81 → ∀ i, i < j → SameUnit i j → g.getD i 0 ≠ g.getD j 0)
    (u : Nat → Nat) (hu : ∀ k, k < 9 → u k < 81)
    (hmono : ∀ k1 k2, k1 < k2 → k2 < 9 → u k1 < u k2)
    (hsu : ∀ k1 k2, k1 < 9 → k2 < 9 → SameUnit (u k1) (u k2)) :
    ((List.range 9).map fun k => g.getD (u k) 0).Pairwise (fun a b => a ≠ b) := by
  rw [List.pairwise_iff_getElem]
  intro i j hi hj hij
  simp only [List.length_map, List.length_range] at hi hj
  simp only [List.getElem_map, List.getElem_range]
  exact hsep (u j) (hu j hj) (u i) (hmono i j hij hj) (hsu i j hi hj)

lemma unit_vals_perm (g : Grid)
    (hval : ∀ i, i < 81 → g.getD i 0 ∈ digits)
    (hsep : ∀ j, j < 81 → ∀ i, i < j → SameUnit i j → g.getD i 0 ≠ g.getD j 0)
    (u : Nat → Nat) (hu : ∀ k, k < 9 → u k < 81)
    (hmono : ∀ k1 k2, k1 < k2 → k2 < 9 → u k1 < u k2)
    (hsu : ∀ k1 k2, k1 < 9 → k2 < 9 → SameUnit (u k1) (u k2)) :
    ((List.range 9).map fun k => g.getD (u k) 0).Perm digits := by
  have hnd : ((List.range 9).map fun k => g.getD (u k) 0).Nodup :=
    pairwise_unit_vals g hsep u hu hmono hsu
  have hdg : digits.Nodup := by decide
  apply List.perm_of_nodup_nodup_toFinset_eq hnd hdg
  apply Finset.eq_of_subset_of_card_le
  · intro x hx
    rw [List.mem_toFinset] at hx ⊢
    obtain ⟨k, hk, rfl⟩ := List.mem_map.mp hx
    exact hval (u k) (hu k (List.mem_range.mp hk))
  · rw [List.toFinset_card_of_nodup hnd, List.toFinset_card_of_nodup hdg]
    simp [digits]

lemma fills_rowVals_perm {g : Grid} (h : Fills 81 0 empty81 g) (row : Nat)
    (hrow : row < 9) : (rowVals g row).Perm digits :=
  unit_vals_perm g (fills_val h) (fills_sep h) (fun k => row * 9 + k)
    (fun k hk => show row * 9 + k < 81 by omega)
    (fun k1 k2 h1 h2 => show row * 9 + k1 < row * 9 + k2 by omega)
    (fun k1 k2 h1 h2 =>
      Or.inl (show (row * 9 + k1) / 9 = (row * 9 + k2) / 9 by omega))

lemma fills_colVals_perm {g : Grid} (h : Fills 81 0 empty81 g) (col : Nat)
    (hcol : col < 9) : (colVals g col).Perm digits :=
  unit_vals_perm g (fills_val h) (fills_sep h) (fun k => k * 9 + col)
    (fun k hk => show k * 9 + col < 81 by omega)
    (fun k1 k2 h1 h2 => show k1 * 9 + col < k2 * 9 + col by omega)
    (fun k1 k2 h1 h2 =>
      Or.inr (Or.inl (show (k1 * 9 + col) % 9 = (k2 * 9 + col) % 9 by omega)))

lemma fills_boxVals_perm {g : Grid} (h : Fills 81 0 empty81 g) (boxRow boxCol : Nat)
    (hbr : boxRow < 3) (hbc : boxCol < 3) : (boxVals g boxRow boxCol).Perm digits :=
  unit_vals_perm g (fills_val h) (fills_sep h)
    (fun k => (boxRow * 3 + k / 3) * 9 + (boxCol * 3 + k % 3))
    (fun k hk =>
      show (boxRow * 3 + k / 3) * 9 + (boxCol * 3 + k % 3) < 81 by omega)
    (fun k1 k2 h1 h2 =>
      show (boxRow * 3 + k1 / 3) * 9 + (boxCol * 3 + k1 % 3) <
        (boxRow * 3 + k2 / 3) * 9 + (boxCol * 3 + k2 % 3) by omega)
    (fun k1 k2 h1 h2 =>
      Or.inr (Or.inr (show
        ((boxRow * 3 + k1 / 3) * 9 + (boxCol * 3 + k1 % 3)) / 9 / 3 =
          ((boxRow * 3 + k2 / 3) * 9 + (boxCol * 3 + k2 % 3)) / 9 / 3 ∧
        ((boxRow * 3 + k1 / 3) * 9 + (boxCol * 3 + k1 % 3)) % 9 / 3 =
          ((boxRow * 3 + k2 / 3) * 9 + (boxCol * 3 + k2 % 3)) % 9 / 3
        by constructor <;> omega)))

lemma fills_isValidGrid {g : Grid} (h : Fills 81 0 empty81 g) :
    isValidGrid g = true := by
  have hsep := fills_sep h
  unfold isValidGrid
  rw [Bool.and_eq_true, Bool.and_eq_true]
  refine ⟨⟨?_, ?_⟩, ?_⟩
  · rw [List.all_eq_true]
    intro row hrow
    have hrow9 := List.mem_range.mp hrow
    rw [noDups_iff]
    refine List.Pairwise.imp ?_ (pairwise_unit_vals g hsep (fun k => row * 9 + k)
      (fun k hk => show row * 9 + k < 81 by omega)
      (fun k1 k2 h1 h2 => show row * 9 + k1 < row * 9 + k2 by omega)
      (fun k1 k2 h1 h2 =>
        Or.inl (show (row * 9 + k1) / 9 = (row * 9 + k2) / 9 by omega)))
    exact fun hab _ => hab
  · rw [List.all_eq_true]
    intro col hcol
    have hcol9 := List.mem_range.mp hcol
    rw [noDups_iff]
    refine List.Pairwise.imp ?_ (pairwise_unit_vals g hsep (fun k => k * 9 + col)
      (fun k hk => show k * 9 + col < 81 by omega)
      (fun k1 k2 h1 h2 => show k1 * 9 + col < k2 * 9 + col by omega)
      (fun k1 k2 h1 h2 =>
        Or.inr (Or.inl (show (k1 * 9 + col) % 9 = (k2 * 9 + col) % 9 by omega))))
    exact fun hab _ => hab
  · rw [List.all_eq_true]
    intro boxRow hbr
    rw [List.all_eq_true]
    intro boxCol hbc
    have hbr3 := List.mem_range.mp hbr
    have hbc3 := List.mem_range.mp hbc
    show noDups ((List.range 3).flatMap fun r =>
      (List.range 3).map fun c =>
        g.getD ((boxRow * 3 + r) * 9 + (boxCol * 3 + c)) 0) = true
    have hbe : ((List.range 3).flatMap fun r =>
        (List.range 3).map fun c =>
          g.getD ((boxRow * 3 + r) * 9 + (boxCol * 3 + c)) 0) =
        (List.range 9).map fun k =>
          g.getD ((boxRow * 3 + k / 3) * 9 + (boxCol * 3 + k % 3)) 0 := rfl
    rw [hbe, noDups_iff]
    refine List.Pairwise.imp ?_ (pairwise_unit_vals g hsep
      (fun k => (boxRow * 3 + k / 3) * 9 + (boxCol * 3 + k % 3))
      (fun k hk =>
        show (boxRow * 3 + k / 3) * 9 + (boxCol * 3 + k % 3) < 81 by omega)
      (fun k1 k2 h1 h2 =>
        show (boxRow * 3 + k1 / 3) * 9 + (boxCol * 3 + k1 % 3) <
          (boxRow * 3 + k2 / 3) * 9 + (boxCol * 3 + k2 % 3) by omega)
      (fun k1 k2 h1 h2 =>
        Or.inr (Or.inr (show
          ((boxRow * 3 + k1 / 3) * 9 + (boxCol * 3 + k1 % 3)) / 9 / 3 =
            ((boxRow * 3 + k2 / 3) * 9 + (boxCol * 3 + k2 % 3)) / 9 / 3 ∧
          ((boxRow * 3 + k1 / 3) * 9 + (boxCol * 3 + k1 % 3)) % 9 / 3 =
            ((boxRow * 3 + k2 / 3) * 9 + (boxCol * 3 + k2 % 3)) % 9 / 3
          by constructor <;> omega))))
    exact fun hab _ => hab

/-! ### Puzzle creation: the validation branch and cell removal -/

lemma createPuzzleF_succ_eq (fuel : Nat) (env : Env) (k : Nat) (d : Difficulty)
    (hv : isValidGrid (generateCompleteGrid env k).1 = true) :
    createPuzzleF (fuel + 1) env k d =
      some ((removeCells
          (shuffleArrayEnv env (List.range 81) (generateCompleteGrid env k).2).1
          (81 - DIFFICULTY_CELLS d) (generateCompleteGrid env k).1,
        (generateCompleteGrid env k).1),
        (shuffleArrayEnv env (List.range 81) (generateCompleteGrid env k).2).2) := by
  unfold createPuzzleF
  dsimp only
  rw [if_pos hv]

lemma createPuzzle_eq (env : Env) (d : Difficulty) :
    createPuzzle env d =
      (removeCells
          (shuffleArrayEnv env (List.range 81) (generateCompleteGrid env 0).2).1
          (81 - DIFFICULTY_CELLS d) (generateCompleteGrid env 0).1,
        (generateCompleteGrid env 0).1) := by
  have hv := fills_isValidGrid (generateCompleteGrid_fills env 0)
  have h1 := createPuzzleF_succ_eq 0 env 0 d hv
  unfold createPuzzle
  rw [h1]

lemma createDailyPuzzle_eq (e : Env) (ds : String) (df : Difficulty) :
    createDailyPuzzle e ds df = createDailyPuzzleFromSolution
      (generateSeededGrid (getDateSeed ds)).1
      (generateSeededGrid (getDateSeed ds)).2 ds df := by
  have hv := fills_isValidGrid (generateSeededGrid_fills (getDateSeed ds))
  show mkDaily ds df = _
  unfold mkDaily
  dsimp only
  rw [if_pos hv]

lemma getD_set_zero_ne {g : Grid} {p q : Nat} (h : p ≠ q) :
    (g.set p 0).getD q 0 = g.getD q 0 := by
  rw [List.getD_eq_getElem?_getD, List.getD_eq_getElem?_getD,
    List.getElem?_set_ne h]

lemma count_zero_set {g : Grid} {p : Nat} (hp : p < g.length)
    (hnz : g.getD p 0 ≠ 0) : (g.set p 0).count 0 = g.count 0 + 1 := by
  rw [List.count_set 0 0 g p hp]
  have hg : ¬g[p] = 0 := by
    rw [List.getD_eq_getElem g 0 hp] at hnz
    exact hnz
  have hb : (g[p] == 0) = false := by simpa using hg
  simp [hb]

lemma removeCells_count : ∀ (ps : List Nat) (k : Nat) (g : Grid), ps.Nodup →
    (∀ p ∈ ps, p < 81) → (∀ p ∈ ps, g.getD p 0 ≠ 0) → g.length = 81 →
    k ≤ ps.length → (removeCells ps k g).count 0 = g.count 0 + k := by
  intro ps
  induction ps with
  | nil =>
    intro k g _ _ _ _ hk
    have hk0 : k = 0 := by simpa using hk
    subst hk0
    rfl
  | cons p rest ih =>
    intro k g hnd hb hnz hlen hk
    cases k with
    | zero => rfl
    | succ k2 =>
      have hstep : removeCells (p :: rest) (k2 + 1) g =
          removeCells rest k2 (g.set p 0) := rfl
      rw [hstep]
      obtain ⟨hp_nin, hnd_rest⟩ := List.nodup_cons.mp hnd
      have hlen2 : (g.set p 0).length = 81 := by
        rw [List.length_set]
        exact hlen
      have hb2 : ∀ q ∈ rest, q < 81 := fun q hq => hb q (List.mem_cons_of_mem p hq)
      have hnz2 : ∀ q ∈ rest, (g.set p 0).getD q 0 ≠ 0 := fun q hq => by
        have hpq : p ≠ q := by
          intro he
          subst he
          exact hp_nin hq
        rw [getD_set_zero_ne hpq]
        exact hnz q (List.mem_cons_of_mem p hq)
      rw [ih k2 (g.set p 0) hnd_rest hb2 hnz2 hlen2 (by simpa using hk)]
      have hplen : p < g.length := by
        rw [hlen]
        exact hb p (List.mem_cons_self p rest)
      rw [count_zero_set hplen (hnz p (List.mem_cons_self p rest))]
      omega

lemma removeCells_sub : ∀ (ps : List Nat) (k : Nat) (g : Grid) (i : Nat),
    (removeCells ps k g).getD i 0 = 0 ∨
      (removeCells ps k g).getD i 0 = g.getD i 0 := by
  intro ps
  induction ps with
  | nil =>
    intro k g i
    cases k with
    | zero => exact Or.inr rfl
    | succ k2 => exact Or.inr rfl
  | cons p rest ih =>
    intro k g i
    cases k with
    | zero => exact Or.inr rfl
    | succ k2 =>
      have hstep : removeCells (p :: rest) (k2 + 1) g =
          removeCells rest k2 (g.set p 0) := rfl
      rcases ih k2 (g.set p 0) i with h0 | heq
      · rw [hstep]
        exact Or.inl h0
      · by_cases hip : p = i
        · subst hip
          by_cases hplen : p < g.length
          · left
            rw [hstep, heq, List.getD_eq_getElem?_getD,
              List.getElem?_set_self hplen]
            rfl
          · right
            rw [hstep, heq, List.getD_eq_getElem?_getD, List.getD_eq_getElem?_getD,
              List.getElem?_set]
            rw [if_pos rfl, if_neg hplen, List.getElem?_eq_none (by omega)]
        · right
          rw [hstep, heq, getD_set_zero_ne hip]

/-! ### Claim C9 -/

/-- C9: every grid produced by `generateCompleteGrid` or
`generateSeededGrid` satisfies `isValidGrid`, so the defensive
validation-failure branches are unreachable: `createPuzzleF` never
recurses (any fuel gives the fuel-1 result), and `createDailyPuzzle`
always takes the first-seed path, never the `seed + 1` retry. -/
theorem claim_C9_validation_branch_unreachable (env : Env) (k : Nat) (r : RngS)
    (fuel : Nat) (d : Difficulty) (e2 : Env) (ds : String) (df : Difficulty) :
    isValidGrid (generateCompleteGrid env k).1 = true ∧
    isValidGrid (generateSeededGrid r).1 = true ∧
    createPuzzleF (fuel + 1) env k d = createPuzzleF 1 env k d ∧
    createDailyPuzzle e2 ds df = createDailyPuzzleFromSolution
      (generateSeededGrid (getDateSeed ds)).1
      (generateSeededGrid (getDateSeed ds)).2 ds df := by
  have hv := fills_isValidGrid (generateCompleteGrid_fills env k)
  refine ⟨hv, fills_isValidGrid (generateSeededGrid_fills r), ?_, ?_⟩
  · rw [createPuzzleF_succ_eq fuel env k d hv]
    exact (createPuzzleF_succ_eq 0 env k d hv).symm
  · exact createDailyPuzzle_eq e2 ds df

/-! ### Claim C4 -/

lemma fills_unit_perms {g : Grid} (h : Fills 81 0 empty81 g) (ri ci : Fin 9)
    (bi bj : Fin 3) :
    (rowVals g ri).Perm digits ∧ (colVals g ci).Perm digits ∧
      (boxVals g bi bj).Perm digits :=
  ⟨fills_rowVals_perm h ri ri.isLt, fills_colVals_perm h ci ci.isLt,
   fills_boxVals_perm h bi bj bi.isLt bj.isLt⟩

/-- C4: the backtracking search from the empty grid always completes (both
the `Math.random`-backed and the seeded search return a filled grid), and
every solution grid produced by `generateCompleteGrid`,
`generateSeededGrid`, `createPuzzle` or `createDailyPuzzle` has, in every
row, every column and every box, the 9 values forming a permutation of
the digits 1-9 (no zeros, no duplicates). -/
theorem claim_C4_solutions_are_digit_perms (env : Env) (k : Nat) (r : RngS)
    (d : Difficulty) (e2 : Env) (ds : String) (df : Difficulty)
    (ri ci : Fin 9) (bi bj : Fin 3) :
    ((solveCellsG (shuffleArrayEnv env) 81 0 empty81 k).1).isSome = true ∧
    ((solveCellsG shuffleArraySeeded 81 0 empty81 r).1).isSome = true ∧
    ((rowVals (generateCompleteGrid env k).1 ri).Perm digits ∧
     (colVals (generateCompleteGrid env k).1 ci).Perm digits ∧
     (boxVals (generateCompleteGrid env k).1 bi bj).Perm digits) ∧
    ((rowVals (generateSeededGrid r).1 ri).Perm digits ∧
     (colVals (generateSeededGrid r).1 ci).Perm digits ∧
     (boxVals (generateSeededGrid r).1 bi bj).Perm digits) ∧
    ((rowVals (createPuzzle env d).2 ri).Perm digits ∧
     (colVals (createPuzzle env d).2 ci).Perm digits ∧
     (boxVals (createPuzzle env d).2 bi bj).Perm digits) ∧
    ((rowVals (createDailyPuzzle e2 ds df).2.1 ri).Perm digits ∧
     (colVals (createDailyPuzzle e2 ds df).2.1 ci).Perm digits ∧
     (boxVals (createDailyPuzzle e2 ds df).2.1 bi bj).Perm digits) := by
  have h3 : (createPuzzle env d).2 = (generateCompleteGrid env 0).1 := by
    rw [createPuzzle_eq env d]
  have h4 : (createDailyPuzzle e2 ds df).2.1 =
      (generateSeededGrid (getDateSeed ds)).1 := by
    rw [createDailyPuzzle_eq e2 ds df]
    rfl
  refine ⟨solveCellsG_isSome_env env k, solveCellsG_isSome_seeded r,
    fills_unit_perms (generateCompleteGrid_fills env k) ri ci bi bj,
    fills_unit_perms (generateSeededGrid_fills r) ri ci bi bj, ?_, ?_⟩
  · rw [h3]
    exact fills_unit_perms (generateCompleteGrid_fills env 0) ri ci bi bj
  · rw [h4]
    exact fills_unit_perms (generateSeededGrid_fills (getDateSeed ds)) ri ci bi bj

/-! ### Claim C3 -/

/-- C3: for every difficulty, the puzzle returned by `createPuzzle` has
exactly `81 - DIFFICULTY_CELLS d` zero cells (easy 45, medium 35, hard
28, extreme 22 revealed), and every non-zero puzzle cell equals the cell
at the same index of the returned solution. -/
theorem claim_C3_puzzle_zero_count_and_agreement (env : Env) (d : Difficulty) :
    ((createPuzzle env d).1).count 0 = 81 - DIFFICULTY_CELLS d ∧
    ((List.range 81).all fun i =>
      ((createPuzzle env d).1.getD i 0 == 0) ||
      ((createPuzzle env d).1.getD i 0 == (createPuzzle env d).2.getD i 0)) = true := by
  have hfl := generateCompleteGrid_fills env 0
  have hperm := shuffleArrayEnv_perm env (List.range 81) (generateCompleteGrid env 0).2
  rw [createPuzzle_eq env d]
  dsimp only
  constructor
  · have hnd : (shuffleArrayEnv env (List.range 81)
        (generateCompleteGrid env 0).2).1.Nodup :=
      hperm.symm.nodup (List.nodup_range 81)
    have hb : ∀ p ∈ (shuffleArrayEnv env (List.range 81)
        (generateCompleteGrid env 0).2).1, p < 81 :=
      fun p hp => List.mem_range.mp (hperm.mem_iff.mp hp)
    have hnz : ∀ p ∈ (shuffleArrayEnv env (List.range 81)
        (generateCompleteGrid env 0).2).1,
        (generateCompleteGrid env 0).1.getD p 0 ≠ 0 := fun p hp => by
      have hd := fills_val hfl p (hb p hp)
      intro h0
      rw [h0] at hd
      exact absurd hd (by decide)
    have hlen := fills_length hfl
    have hkle : 81 - DIFFICULTY_CELLS d ≤ (shuffleArrayEnv env (List.range 81)
        (generateCompleteGrid env 0).2).1.length := by
      rw [hperm.length_eq, List.length_range]
      omega
    have hcnt0 : (generateCompleteGrid env 0).1.count 0 = 0 := by
      rw [List.count_eq_zero]
      intro hmem
      obtain ⟨n, hn, hval⟩ := List.mem_iff_getElem.mp hmem
      have hd := fills_val hfl n (by rw [hlen] at hn; exact hn)
      rw [List.getD_eq_getElem _ 0 hn, hval] at hd
      exact absurd hd (by decide)
    rw [removeCells_count _ _ _ hnd hb hnz hlen hkle, hcnt0]
    omega
  · rw [List.all_eq_true]
    intro i _
    rcases removeCells_sub (shuffleArrayEnv env (List.range 81)
        (generateCompleteGrid env 0).2).1 (81 - DIFFICULTY_CELLS d)
        (generateCompleteGrid env 0).1 i with h0 | heq
    · rw [h0]
      simp
    · rw [heq]
      simp
